import Mathlib

/-!
Shallow embedding of the pKVM FF-A mediation proxy
(arch/arm64/kvm/hyp/nvhe/ffa.c) and verification of the frozen claims
about it.

Modelling conventions:
* Machine registers are `Nat` with u64/u32 semantics made explicit by
  `% 2^32` truncation where the C code declares a `u32` register, and by
  the `u64ofInt`/`s32ofU64` conversions where the C code stores a signed
  FF-A status into an unsigned register or reads one back.
* The stage-2 ownership authority (`__pkvm_host_share_ffa`,
  `__pkvm_guest_share_ffa`, `__pkvm_guest_share_hyp`,
  `hyp_pin_shared_*`, ...) is an external collaborator of this file; it
  is modelled as a state transformer over explicit `Finset Nat` page
  sets, with success conditions taken from its documented contract
  (share fails unless the page is owned and not already shared; unshare
  fails unless the page is shared) plus `Oracle` predicates for the
  environment-dependent parts (residency, pin accounting, allocator).
* The secure side (SPMD at EL3) is an oracle `smc : SecureCall ->
  ArmSmcccRes`; every SMC the code issues is also appended to an
  observable trace.
* Wire descriptors are modelled structurally (`FfaMemRegionDesc`), with
  the byte-level offset/length validation of the C code reproduced
  arithmetically using the sizes of the v1.1 structures
  (`ffa_mem_region` = 48, `ffa_mem_region_attributes` = 16,
  `ffa_composite_mem_region` header = 16, `ffa_mem_region_addr_range` =
  16 bytes).
-/

namespace Ffa

/-! ## Configuration and protocol constants -/

def PAGE_SIZE : Nat := 4096
def FFA_PAGE_SIZE : Nat := 4096
def KVM_FFA_MBOX_NR_PAGES : Nat := 1
def USHRT_MAX : Nat := 65535
def KVM_MAX_PVMS : Nat := 8
def HOST_FFA_ID : Nat := 0
def FFA_MAX_REGISTERED_SP_IDS : Nat := 8

/-- Modelled from the spec: size of the scratch descriptor buffer
(`ffa_desc_buf.len`), fixed at init from the proxy page donation; the
exact number of pages is a boot-time configuration, any whole multiple
of `PAGE_SIZE` larger than the mailbox works for the claims. -/
def ffa_desc_buf_len : Nat := 4 * PAGE_SIZE

def FFA_ERROR : Nat := 0x84000060
def FFA_SUCCESS : Nat := 0x84000061
def FFA_VERSION_FUNC : Nat := 0x84000063
def FFA_FEATURES : Nat := 0x84000064
def FFA_RX_RELEASE : Nat := 0x84000065
def FFA_RXTX_MAP : Nat := 0x84000066
def FFA_FN64_RXTX_MAP : Nat := 0xC4000066
def FFA_RXTX_UNMAP : Nat := 0x84000067
def FFA_PARTITION_INFO_GET : Nat := 0x84000068
def FFA_ID_GET : Nat := 0x84000069
def FFA_MSG_POLL : Nat := 0x8400006A
def FFA_MSG_WAIT : Nat := 0x8400006B
def FFA_MSG_SEND : Nat := 0x8400006E
def FFA_MSG_SEND_DIRECT_REQ : Nat := 0x8400006F
def FFA_MSG_SEND_DIRECT_RESP : Nat := 0x84000070
def FFA_MEM_DONATE : Nat := 0x84000071
def FFA_MEM_LEND : Nat := 0x84000072
def FFA_MEM_SHARE : Nat := 0x84000073
def FFA_MEM_RETRIEVE_REQ : Nat := 0x84000074
def FFA_MEM_RETRIEVE_RESP : Nat := 0x84000075
def FFA_MEM_RELINQUISH : Nat := 0x84000076
def FFA_MEM_RECLAIM : Nat := 0x84000077
def FFA_MEM_OP_PAUSE : Nat := 0x84000078
def FFA_MEM_OP_RESUME : Nat := 0x84000079
def FFA_MEM_FRAG_RX : Nat := 0x8400007A
def FFA_MEM_FRAG_TX : Nat := 0x8400007B
def FFA_FN64_MEM_DONATE : Nat := 0xC4000071
def FFA_FN64_MEM_LEND : Nat := 0xC4000072
def FFA_FN64_MEM_SHARE : Nat := 0xC4000073
def FFA_FN64_MEM_RETRIEVE_REQ : Nat := 0xC4000074

def FFA_VERSION_1_0 : Nat := 0x10000
def FFA_VERSION_1_1 : Nat := 0x10001

def FFA_RET_SUCCESS : Int := 0
def FFA_RET_NOT_SUPPORTED : Int := -1
def FFA_RET_INVALID_PARAMETERS : Int := -2
def FFA_RET_NO_MEMORY : Int := -3
def FFA_RET_BUSY : Int := -4
def FFA_RET_DENIED : Int := -6
def FFA_RET_ABORTED : Int := -8

def EPERM : Int := 1
def ENOMEM : Int := 12
def EFAULT : Int := 14
def EOPNOTSUPP : Int := 95
def EINVAL : Int := 22

/-- Modelled from the spec: the VM availability message identifiers
passed to `FFA_MSG_SEND_DIRECT_REQ`; their numeric values only flow
into the oracle. -/
def FFA_VM_CREATION_MSG : Nat := 4
def FFA_VM_DESTRUCTION_MSG : Nat := 5

/-- sizeof(struct ffa_mem_region) for the v1.1 layout. -/
def FFA_MEM_REGION_SZ : Nat := 48
/-- sizeof(struct ffa_mem_region_attributes). -/
def FFA_MEM_ATTRS_SZ : Nat := 16
/-- sizeof(struct ffa_composite_mem_region) flexible-array header. -/
def FFA_COMPOSITE_SZ : Nat := 16
/-- sizeof(struct ffa_mem_region_addr_range). -/
def FFA_RANGE_SZ : Nat := 16

/-- Store of a signed C value into an unsigned 64-bit register. -/
def u64ofInt (i : Int) : Nat := (i % (2 ^ 64 : Int)).toNat

/-- Read-back of a u64 register into a C `int` (truncate to 32 bits,
then reinterpret as two's complement). -/
def s32ofU64 (n : Nat) : Int :=
  let m : Nat := n % 2 ^ 32
  if m < 2 ^ 31 then (m : Int) else (m : Int) - 2 ^ 32

def PACK_HANDLE (lo hi : Nat) : Nat := lo + hi * 2 ^ 32

/-! ## Basic data types -/

structure ArmSmcccRes where
  a0 : Nat := 0
  a1 : Nat := 0
  a2 : Nat := 0
  a3 : Nat := 0
deriving DecidableEq, Repr

instance : Inhabited ArmSmcccRes := ⟨{}⟩

/-- struct ffa_mem_region_addr_range. -/
structure FfaAddrRange where
  address : Nat
  pg_cnt : Nat
deriving DecidableEq, Repr

/-- struct ffa_composite_mem_region (header fields plus the
constituent flexible array). -/
structure FfaComposite where
  total_pg_cnt : Nat
  addr_range_cnt : Nat
  constituents : List FfaAddrRange
deriving DecidableEq, Repr

/-- Structural view of the memory-region descriptor a caller places in
its TX buffer: the `ffa_mem_region` header fields that the proxy
reads, the single endpoint access entry, and the composite region
found at `composite_off`. -/
structure FfaMemRegionDesc where
  ep_count : Nat
  composite_off : Nat
  region : FfaComposite
deriving DecidableEq, Repr

/-- struct ffa_translation. -/
structure FfaTranslation where
  ipa : Nat
  pa : Nat
deriving DecidableEq, Repr

/-- struct ffa_mem_transfer. -/
structure FfaMemTransfer where
  ffa_handle : Nat
  translations : List FfaTranslation
deriving DecidableEq, Repr

/-- struct kvm_ffa_buffers (one slot of `endp_buffers[]`): mapped
buffer hypervisor addresses (presence = mapped), the caller-supplied
addresses, and the transfer list. -/
structure EndpBuf where
  tx : Option Nat := none
  rx : Option Nat := none
  tx_ipa : Nat := 0
  rx_ipa : Nat := 0
  xfer_list : List FfaMemTransfer := []
deriving DecidableEq, Repr

instance : Inhabited EndpBuf := ⟨{}⟩

/-- Calls the proxy can issue to the secure side (EL3/SPMD), by
`arm_smccc_1_1_smc` call site. The fixed physical addresses of the
hypervisor mailbox are omitted from `rxtxMap`. -/
inductive SecureCall where
  | rxtxMap (ffa_page_count : Nat)
  | rxtxUnmap (id : Nat)
  | fragTx (handle_lo handle_hi fraglen endpoint_id : Nat)
  | fragRx (handle_lo handle_hi fragoff : Nat)
  | memXfer (func_id len fraglen : Nat)
  | memReclaim (handle_lo handle_hi flags : Nat)
  | retrieveReq (len : Nat)
  | rxRelease
  | version (req : Nat)
  | directReq (sp_id msg vm_handle : Nat)
  | partInfoGet (uuid0 uuid1 uuid2 uuid3 flags : Nat)
  | idGet
  | features (id : Nat)
deriving DecidableEq, Repr

/-- The global mutable state of the proxy together with the page-set
view of the external stage-2 ownership authority. -/
structure FfaState where
  /-- host PFNs currently marked shared with the secure side. -/
  hostShared : Finset Nat := ∅
  /-- guest IPA pages currently marked shared with the secure side
  (state of the calling guest). -/
  guestSharedIpa : Finset Nat := ∅
  /-- physical pages pinned for those guest shares. -/
  guestSharedPa : Finset Nat := ∅
  /-- host PFNs shared with the hypervisor (mailbox pages). -/
  hostHypShared : Finset Nat := ∅
  /-- host mailbox PFNs pinned by the hypervisor. -/
  hostPinned : Finset Nat := ∅
  /-- guest IPA pages shared with the hypervisor (mailbox pages). -/
  guestHypSharedIpa : Finset Nat := ∅
  /-- guest mailbox IPA pages pinned by the hypervisor. -/
  guestPinnedIpa : Finset Nat := ∅
  /-- endp_buffers[], indexed by vm_handle. -/
  endp : List EndpBuf := List.replicate KVM_MAX_PVMS {}
  hyp_buff_refcnt : Nat := 0
  hyp_ffa_version : Nat := 0
  has_version_negotiated : Bool := false
  /-- sp_ids[0..num_registered_sp_ids). -/
  sp_ids : List Nat := []
deriving DecidableEq

def getEndp (st : FfaState) (i : Nat) : EndpBuf := st.endp.getD i {}

def setEndp (st : FfaState) (i : Nat) (b : EndpBuf) : FfaState :=
  { st with endp := st.endp.set i b }

/-- Environment of a run: stage-2/allocator behaviour that is not part
of the proxy state, and the secure-side responses. -/
structure Oracle where
  /-- host PFN is in the OWNED state usable for sharing. -/
  hostOwned : Nat → Bool
  /-- guest IPA page is resident and owned (sharing fails with
  -EFAULT otherwise). -/
  guestOwned : Nat → Bool
  /-- stage-2 translation of the calling guest. -/
  ipa2pa : Nat → Nat
  /-- pin accounting accepts a pin of this page. -/
  pinOk : Nat → Bool
  /-- the n-th `hyp_alloc` of the call succeeds. -/
  allocOk : Nat → Bool
  /-- secure-side response to each issued SMC. -/
  smc : SecureCall → ArmSmcccRes
  /-- composite_off field of the descriptor the SPMD writes into the
  hypervisor RX buffer on `FFA_MEM_RETRIEVE_RESP`. -/
  retrievedOffset : Nat
  /-- addr_range_cnt field of that retrieved descriptor. -/
  retrievedRangeCnt : Nat
  /-- constituent ranges of that retrieved descriptor. -/
  retrievedRanges : List FfaAddrRange
  /-- partition id of the i-th entry of a PARTITION_INFO_GET response. -/
  partId : Nat → Nat
  /-- the i-th entry advertises VM availability message support. -/
  partAvail : Nat → Bool

/-! ## smccc result helpers -/

def ffa_to_smccc_error (ffa_errno : Int) : ArmSmcccRes :=
  { a0 := FFA_ERROR, a2 := u64ofInt ffa_errno }

def ffa_to_smccc_res_prop (ret : Int) (prop : Nat) : ArmSmcccRes :=
  if ret = FFA_RET_SUCCESS then { a0 := FFA_SUCCESS, a2 := prop }
  else ffa_to_smccc_error ret

def ffa_to_smccc_res (ret : Int) : ArmSmcccRes :=
  ffa_to_smccc_res_prop ret 0

/-- Common result record of the modelled operations: the smccc result
written back (when any), the C `int` return value, the post state and
the trace of secure-side calls issued. -/
structure FfaOut where
  res : ArmSmcccRes
  ret : Int
  st : FfaState
  trace : List SecureCall
deriving DecidableEq

/-! ## Stage-2 ownership authority (external collaborator) -/

def pfnRange (pfn n : Nat) : Finset Nat :=
  (Finset.range n).image (fun j => pfn + j)

/-- __pkvm_host_share_ffa(pfn, nr_pages): transition the host pages to
shared-with-FFA; fails unless all pages are owned and none is already
shared. -/
def pkvm_host_share_ffa (orc : Oracle) (s : Finset Nat) (pfn n : Nat) :
    Option (Finset Nat) :=
  if (∀ p ∈ pfnRange pfn n, orc.hostOwned p = true) ∧ Disjoint (pfnRange pfn n) s
  then some (s ∪ pfnRange pfn n) else none

/-- __pkvm_host_unshare_ffa(pfn, nr_pages): fails unless all pages are
currently shared. -/
def pkvm_host_unshare_ffa (s : Finset Nat) (pfn n : Nat) :
    Option (Finset Nat) :=
  if pfnRange pfn n ⊆ s then some (s \ pfnRange pfn n) else none

/-! ## Host range sharing (__ffa_host_share_ranges and friends) -/

def hostRangePfn (r : FfaAddrRange) : Nat := r.address / PAGE_SIZE
def hostRangeNPages (r : FfaAddrRange) : Nat :=
  r.pg_cnt * FFA_PAGE_SIZE / PAGE_SIZE
def hostRangePages (r : FfaAddrRange) : Finset Nat :=
  pfnRange (hostRangePfn r) (hostRangeNPages r)

/-- __ffa_host_share_ranges: share ranges in order, stopping at the
first misaligned or refused range; returns the number of ranges
shared and the resulting shared set. -/
def ffa_host_share_ranges_core (orc : Oracle) :
    List FfaAddrRange → Finset Nat → Nat × Finset Nat
  | [], s => (0, s)
  | r :: rs, s =>
    if (r.pg_cnt * FFA_PAGE_SIZE) % PAGE_SIZE ≠ 0 then (0, s)
    else
      match pkvm_host_share_ffa orc s (hostRangePfn r) (hostRangeNPages r) with
      | none => (0, s)
      | some s1 =>
        let p := ffa_host_share_ranges_core orc rs s1
        (p.1 + 1, p.2)

/-- __ffa_host_unshare_ranges. -/
def ffa_host_unshare_ranges_core :
    List FfaAddrRange → Finset Nat → Nat × Finset Nat
  | [], s => (0, s)
  | r :: rs, s =>
    if (r.pg_cnt * FFA_PAGE_SIZE) % PAGE_SIZE ≠ 0 then (0, s)
    else
      match pkvm_host_unshare_ffa s (hostRangePfn r) (hostRangeNPages r) with
      | none => (0, s)
      | some s1 =>
        let p := ffa_host_unshare_ranges_core rs s1
        (p.1 + 1, p.2)

/-- ffa_host_share_ranges: share all ranges or roll the shared prefix
back and report FFA_RET_DENIED. -/
def ffa_host_share_ranges (orc : Oracle) (ranges : List FfaAddrRange)
    (s : Finset Nat) : Int × Finset Nat :=
  let p := ffa_host_share_ranges_core orc ranges s
  if p.1 ≠ ranges.length then
    let q := ffa_host_unshare_ranges_core (ranges.take p.1) p.2
    (FFA_RET_DENIED, q.2)
  else (0, p.2)

/-- ffa_host_unshare_ranges. -/
def ffa_host_unshare_ranges (orc : Oracle) (ranges : List FfaAddrRange)
    (s : Finset Nat) : Int × Finset Nat :=
  let p := ffa_host_unshare_ranges_core ranges s
  if p.1 ≠ ranges.length then
    let q := ffa_host_share_ranges_core orc (ranges.take p.1) p.2
    (FFA_RET_DENIED, q.2)
  else (0, p.2)

/-! ## Guest FF-A page sharing (ffa_guest_share_ranges and friends) -/

/-- __pkvm_guest_share_ffa(vcpu, ipa, &pa): share one guest page with
the secure side; -EFAULT when the page is not resident/owned (which
makes the caller raise a page-fault-resolution request), failure when
the page or its physical frame is already shared. -/
def pkvm_guest_share_ffa (orc : Oracle) (st : FfaState) (ipa : Nat) :
    Except Int (FfaState × Nat) :=
  if orc.guestOwned ipa = false then .error (-EFAULT)
  else if ipa ∈ st.guestSharedIpa ∨ orc.ipa2pa ipa ∈ st.guestSharedPa then
    .error (-EPERM)
  else
    .ok ({ st with
            guestSharedIpa := insert ipa st.guestSharedIpa,
            guestSharedPa := insert (orc.ipa2pa ipa) st.guestSharedPa },
         orc.ipa2pa ipa)

/-- __pkvm_guest_unshare_ffa(vcpu, ipa), with the WARN_ON of its
callers absorbed: when the page is not shared the call fails and the
state is left unchanged. -/
def pkvm_guest_unshare_ffa (orc : Oracle) (st : FfaState) (ipa : Nat) :
    FfaState :=
  if ipa ∈ st.guestSharedIpa then
    { st with
      guestSharedIpa := st.guestSharedIpa.erase ipa,
      guestSharedPa := st.guestSharedPa.erase (orc.ipa2pa ipa) }
  else st

/-- ffa_find_translation: first translation record with this physical
address (the list is kept newest-first, as list_add prepends). -/
def ffa_find_translation (trs : List FfaTranslation) (pa : Nat) :
    Option FfaTranslation :=
  trs.find? (fun t => t.pa == pa)

/-- ffa_guest_unshare_ranges: walk the painted one-page ranges, look
the translation of each up by physical address, unshare its IPA and
delete the record. (When no translation is found the C code would
WARN and dereference NULL; the modelled runs never reach that case.) -/
def ffa_guest_unshare_ranges (orc : Oracle) :
    List FfaAddrRange → List FfaTranslation → FfaState →
    List FfaTranslation × FfaState
  | [], trs, st => (trs, st)
  | r :: rest, trs, st =>
    match ffa_find_translation trs r.address with
    | none => ffa_guest_unshare_ranges orc rest trs st
    | some t =>
      ffa_guest_unshare_ranges orc rest (trs.erase t)
        (pkvm_guest_unshare_ffa orc st t.ipa)

/-- Loop variables of ffa_guest_share_ranges: the evolving state, the
transfer translation list, the painted output ranges
(`out_region->constituents[0..mem_region_idx)`) and the allocation
counter feeding `Oracle.allocOk`. -/
structure GuestShareLoop where
  st : FfaState
  trs : List FfaTranslation
  painted : List FfaAddrRange
  aidx : Nat
deriving DecidableEq

/-- Inner per-page loop of ffa_guest_share_ranges for one range
(iteration on j < range->pg_cnt): share the page, record the
translation (rolling the share of this page back if the record
allocation fails), paint a one-page output range. -/
def ffa_guest_share_pages (orc : Oracle) (addr : Nat) :
    Nat → Nat → GuestShareLoop → Int × GuestShareLoop
  | 0, _, g => (0, g)
  | n + 1, j, g =>
    let ipa := addr + PAGE_SIZE * j
    match pkvm_guest_share_ffa orc g.st ipa with
    | .error e => (e, g)
    | .ok (st1, pa) =>
      if orc.allocOk g.aidx then
        ffa_guest_share_pages orc addr n (j + 1)
          ⟨st1, ⟨ipa, pa⟩ :: g.trs, g.painted ++ [⟨pa, 1⟩], g.aidx + 1⟩
      else
        (-ENOMEM, ⟨pkvm_guest_unshare_ffa orc st1 ipa, g.trs, g.painted, g.aidx + 1⟩)

/-- Outer loop of ffa_guest_share_ranges over the declared ranges. -/
def ffa_guest_share_ranges_go (orc : Oracle) :
    List FfaAddrRange → GuestShareLoop → Int × GuestShareLoop
  | [], g => (0, g)
  | r :: rest, g =>
    let p := ffa_guest_share_pages orc r.address r.pg_cnt 0 g
    if p.1 ≠ 0 then p else ffa_guest_share_ranges_go orc rest p.2

/-- ffa_guest_share_ranges: translate and share every page of every
range; on any failure every page already shared in this call is
unshared before the error is returned. On success the painted ranges
and the recorded translations are returned (`out_region` receives the
painted constituents and `addr_range_cnt := painted.length`). -/
def ffa_guest_share_ranges (orc : Oracle) (ranges : List FfaAddrRange)
    (st : FfaState) (trs : List FfaTranslation) (aidx : Nat) :
    Int × FfaState × List FfaTranslation × List FfaAddrRange :=
  let p := ffa_guest_share_ranges_go orc ranges ⟨st, trs, [], aidx⟩
  if p.1 ≠ 0 then
    let q := ffa_guest_unshare_ranges orc p.2.painted p.2.trs p.2.st
    (p.1, q.2, q.1, p.2.painted)
  else (0, p.2.st, p.2.trs, p.2.painted)

/-! ## Mailbox buffer authority (hyp share/pin for RX/TX pages) -/

/-- __pkvm_host_share_hyp(pfn). -/
def pkvm_host_share_hyp (orc : Oracle) (st : FfaState) (pfn : Nat) :
    Except Int FfaState :=
  if orc.hostOwned pfn = true ∧ pfn ∉ st.hostHypShared then
    .ok { st with hostHypShared := insert pfn st.hostHypShared }
  else .error (-EPERM)

/-- __pkvm_host_unshare_hyp(pfn), WARN_ON absorbed. -/
def pkvm_host_unshare_hyp (st : FfaState) (pfn : Nat) : FfaState :=
  { st with hostHypShared := st.hostHypShared.erase pfn }

/-- hyp_pin_shared_mem over one mailbox page. -/
def hyp_pin_shared_mem (orc : Oracle) (st : FfaState) (pfn : Nat) :
    Except Int FfaState :=
  if pfn ∈ st.hostHypShared ∧ orc.pinOk pfn = true then
    .ok { st with hostPinned := insert pfn st.hostPinned }
  else .error (-EPERM)

/-- hyp_unpin_shared_mem over one mailbox page. -/
def hyp_unpin_shared_mem (st : FfaState) (pfn : Nat) : FfaState :=
  { st with hostPinned := st.hostPinned.erase pfn }

/-- __pkvm_guest_share_hyp(vcpu, ipa): returns the hypervisor alias of
the page (modelled as the IPA itself); -EFAULT when not resident. -/
def pkvm_guest_share_hyp (orc : Oracle) (st : FfaState) (ipa : Nat) :
    Except Int (FfaState × Nat) :=
  if orc.guestOwned ipa = false then .error (-EFAULT)
  else if ipa ∈ st.guestHypSharedIpa then .error (-EPERM)
  else .ok ({ st with guestHypSharedIpa := insert ipa st.guestHypSharedIpa }, ipa)

/-- __pkvm_guest_unshare_hyp(vcpu, ipa), WARN_ON absorbed. -/
def pkvm_guest_unshare_hyp (st : FfaState) (ipa : Nat) : FfaState :=
  { st with guestHypSharedIpa := st.guestHypSharedIpa.erase ipa }

/-- hyp_pin_shared_guest_page(vcpu, ipa, va). -/
def hyp_pin_shared_guest_page (orc : Oracle) (st : FfaState) (ipa : Nat) :
    Except Int FfaState :=
  if ipa ∈ st.guestHypSharedIpa ∧ orc.pinOk ipa = true then
    .ok { st with guestPinnedIpa := insert ipa st.guestPinnedIpa }
  else .error (-EPERM)

/-- hyp_unpin_shared_guest_page(vcpu, va). -/
def hyp_unpin_shared_guest_page (st : FfaState) (ipa : Nat) : FfaState :=
  { st with guestPinnedIpa := st.guestPinnedIpa.erase ipa }

/-! ## Hypervisor mailbox lifecycle -/

/-- ffa_map_hyp_buffers: refuse at the refcount ceiling, increment,
and only on the 0 -> 1 transition issue the RXTX_MAP SMC. Note that a
failed SMC leaves the incremented count in place. -/
def ffa_map_hyp_buffers (orc : Oracle) (st : FfaState)
    (ffa_page_count : Nat) : Int × FfaState × List SecureCall :=
  if st.hyp_buff_refcnt = USHRT_MAX then (FFA_RET_BUSY, st, [])
  else
    let st1 := { st with hyp_buff_refcnt := st.hyp_buff_refcnt + 1 }
    if st1.hyp_buff_refcnt > 1 then (FFA_RET_SUCCESS, st1, [])
    else
      let r := orc.smc (SecureCall.rxtxMap ffa_page_count)
      (if r.a0 = FFA_SUCCESS then FFA_RET_SUCCESS else s32ofU64 r.a2,
       st1, [SecureCall.rxtxMap ffa_page_count])

/-- ffa_unmap_hyp_buffers: decrement and issue the RXTX_UNMAP SMC only
when the count reaches zero. -/
def ffa_unmap_hyp_buffers (orc : Oracle) (st : FfaState) :
    Int × FfaState × List SecureCall :=
  let st1 := { st with hyp_buff_refcnt := st.hyp_buff_refcnt - 1 }
  if st1.hyp_buff_refcnt ≠ 0 then (FFA_RET_SUCCESS, st1, [])
  else
    let r := orc.smc (SecureCall.rxtxUnmap HOST_FFA_ID)
    (if r.a0 = FFA_SUCCESS then FFA_RET_SUCCESS else s32ofU64 r.a2,
     st1, [SecureCall.rxtxUnmap HOST_FFA_ID])

/-- kvm_notify_vm_availability: direct-request every registered secure
partition; the empty registration list means immediate success. -/
def kvm_notify_vm_availability_go (orc : Oracle) (vm_handle msg : Nat) :
    List Nat → Int × List SecureCall
  | [] => (FFA_RET_SUCCESS, [])
  | sp :: rest =>
    let c := SecureCall.directReq sp msg vm_handle
    let r := orc.smc c
    if r.a0 ≠ FFA_MSG_SEND_DIRECT_RESP then (FFA_RET_INVALID_PARAMETERS, [c])
    else if r.a3 ≠ 0 then (s32ofU64 r.a3, [c])
    else
      let p := kvm_notify_vm_availability_go orc vm_handle msg rest
      (p.1, c :: p.2)

def kvm_notify_vm_availability (orc : Oracle) (st : FfaState)
    (vm_handle msg : Nat) : Int × List SecureCall :=
  kvm_notify_vm_availability_go orc vm_handle msg st.sp_ids

/-- ffa_map_host_buffers: share then pin the host TX and RX pages,
with each failure unwinding, in reverse order, exactly the steps that
succeeded (the error labels are stacked bottom-up). -/
def ffa_map_host_buffers (orc : Oracle) (st : FfaState) (tx rx : Nat) :
    Int × FfaState × Option (Nat × Nat) :=
  let txPfn := tx / PAGE_SIZE
  let rxPfn := rx / PAGE_SIZE
  match pkvm_host_share_hyp orc st txPfn with
  | .error _ => (FFA_RET_INVALID_PARAMETERS, st, none)
  | .ok st1 =>
    match pkvm_host_share_hyp orc st1 rxPfn with
    | .error _ =>
      -- err_unshare_tx
      (FFA_RET_INVALID_PARAMETERS, pkvm_host_unshare_hyp st1 txPfn, none)
    | .ok st2 =>
      match hyp_pin_shared_mem orc st2 txPfn with
      | .error _ =>
        -- err_unshare_rx then err_unshare_tx
        (FFA_RET_INVALID_PARAMETERS,
         pkvm_host_unshare_hyp (pkvm_host_unshare_hyp st2 rxPfn) txPfn, none)
      | .ok st3 =>
        match hyp_pin_shared_mem orc st3 rxPfn with
        | .error _ =>
          -- err_unpin_tx, err_unshare_rx, err_unshare_tx
          (FFA_RET_INVALID_PARAMETERS,
           pkvm_host_unshare_hyp
             (pkvm_host_unshare_hyp (hyp_unpin_shared_mem st3 txPfn) rxPfn)
             txPfn, none)
        | .ok st4 => (0, st4, some (tx, rx))

/-- ffa_map_guest_buffers: share then pin the guest TX and RX pages.
The error labels of the C function fall through in source order
(err_unshare_tx, then err_unshare_rx, then err_unpin_tx), so each
error path runs the label it jumps to and every label below it; the
translation reproduces that order exactly. -/
def ffa_map_guest_buffers (orc : Oracle) (st : FfaState)
    (tx_ipa rx_ipa : Nat) : Int × FfaState × Option (Nat × Nat) :=
  match pkvm_guest_share_hyp orc st tx_ipa with
  | .error e => (e, st, none)
  | .ok (st1, txva) =>
    match pkvm_guest_share_hyp orc st1 rx_ipa with
    | .error e =>
      -- goto err_unshare_tx: unshare tx, unshare rx, unpin tx
      (e, hyp_unpin_shared_guest_page
            (pkvm_guest_unshare_hyp (pkvm_guest_unshare_hyp st1 tx_ipa) rx_ipa)
            txva, none)
    | .ok (st2, rxva) =>
      match hyp_pin_shared_guest_page orc st2 tx_ipa with
      | .error e =>
        -- goto err_unshare_rx: unshare rx, unpin tx (tx stays shared)
        (e, hyp_unpin_shared_guest_page (pkvm_guest_unshare_hyp st2 rx_ipa)
              txva, none)
      | .ok st3 =>
        match hyp_pin_shared_guest_page orc st3 rx_ipa with
        | .error e =>
          -- goto err_unpin_tx: unpin tx only (tx and rx stay shared)
          (e, hyp_unpin_shared_guest_page st3 txva, none)
        | .ok st4 => (0, st4, some (txva, rxva))

/-- do_ffa_rxtx_map. -/
def do_ffa_rxtx_map (orc : Oracle) (st : FfaState) (vm_handle : Nat)
    (tx rx npages0 : Nat) : FfaOut :=
  let npages := npages0 % 2 ^ 32
  if npages ≠ (KVM_FFA_MBOX_NR_PAGES * PAGE_SIZE) / FFA_PAGE_SIZE then
    ⟨ffa_to_smccc_res FFA_RET_INVALID_PARAMETERS, FFA_RET_INVALID_PARAMETERS, st, []⟩
  else if ¬(tx % PAGE_SIZE = 0 ∧ rx % PAGE_SIZE = 0) then
    ⟨ffa_to_smccc_res FFA_RET_INVALID_PARAMETERS, FFA_RET_INVALID_PARAMETERS, st, []⟩
  else
    let nres := kvm_notify_vm_availability orc st vm_handle FFA_VM_CREATION_MSG
    if nres.1 ≠ FFA_RET_SUCCESS then
      ⟨ffa_to_smccc_res nres.1, nres.1, st, nres.2⟩
    else if (getEndp st vm_handle).tx.isSome then
      ⟨ffa_to_smccc_res FFA_RET_DENIED, FFA_RET_DENIED, st, nres.2⟩
    else
      let m := ffa_map_hyp_buffers orc st npages
      if m.1 ≠ 0 then
        ⟨ffa_to_smccc_res m.1, m.1, m.2.1, nres.2 ++ m.2.2⟩
      else
        let b := if vm_handle = 0 then ffa_map_host_buffers orc m.2.1 tx rx
                 else ffa_map_guest_buffers orc m.2.1 tx rx
        if b.1 ≠ 0 then
          -- err_unmap: drop the hypervisor mailbox reference again
          let u := ffa_unmap_hyp_buffers orc b.2.1
          ⟨ffa_to_smccc_res b.1, b.1, u.2.1, nres.2 ++ m.2.2 ++ u.2.2⟩
        else
          let vas := b.2.2.getD (0, 0)
          let e := getEndp b.2.1 vm_handle
          ⟨ffa_to_smccc_res 0, 0,
           setEndp b.2.1 vm_handle
             { e with tx := some vas.1, rx := some vas.2, tx_ipa := tx, rx_ipa := rx },
           nres.2 ++ m.2.2⟩

/-- do_ffa_rxtx_unmap. -/
def do_ffa_rxtx_unmap (orc : Oracle) (st : FfaState) (vm_handle : Nat)
    (id0 : Nat) : FfaOut :=
  let id := id0 % 2 ^ 32
  if id ≠ HOST_FFA_ID then
    ⟨ffa_to_smccc_res FFA_RET_INVALID_PARAMETERS, FFA_RET_INVALID_PARAMETERS, st, []⟩
  else
    match (getEndp st vm_handle).tx with
    | none =>
      ⟨ffa_to_smccc_res FFA_RET_INVALID_PARAMETERS, FFA_RET_INVALID_PARAMETERS, st, []⟩
    | some txva =>
      let e := getEndp st vm_handle
      let rxva := e.rx.getD 0
      let st1 :=
        if vm_handle = HOST_FFA_ID then
          -- host: unpin and unshare both mailbox pages by PFN
          let stA := pkvm_host_unshare_hyp
            (hyp_unpin_shared_mem st (txva / PAGE_SIZE)) (txva / PAGE_SIZE)
          pkvm_host_unshare_hyp (hyp_unpin_shared_mem stA (rxva / PAGE_SIZE))
            (rxva / PAGE_SIZE)
        else
          -- guest: unpin by hyp alias, unshare by stored IPA
          let stA := pkvm_guest_unshare_hyp (hyp_unpin_shared_guest_page st txva)
            e.tx_ipa
          pkvm_guest_unshare_hyp (hyp_unpin_shared_guest_page stA rxva) e.rx_ipa
      let st2 := setEndp st1 vm_handle { e with tx := none, rx := none }
      let u := ffa_unmap_hyp_buffers orc st2
      ⟨ffa_to_smccc_res 0, 0, u.2.1, u.2.2⟩

/-! ## Memory transfer (share/lend) -/

/-- is_page_count_valid: the declared total page count must equal the
u32 sum of the per-range counts over the `nranges` entries read from
the staged buffer. -/
def is_page_count_valid (reg : FfaComposite) (nranges : Nat) : Bool :=
  (reg.constituents.take nranges).foldl
      (fun a r => (a + r.pg_cnt) % 2 ^ 32) 0
    == reg.total_pg_cnt % 2 ^ 32

/-- __do_ffa_mem_xfer, covering both FFA_FN64_MEM_SHARE and
FFA_FN64_MEM_LEND. `txdesc` is the descriptor content of the calling
endpoint TX buffer at the time of the staging memcpy. -/
def __do_ffa_mem_xfer (orc : Oracle) (st : FfaState)
    (func_id vm_handle : Nat) (len0 fraglen0 addr_mbz npages_mbz : Nat)
    (txdesc : FfaMemRegionDesc) : FfaOut :=
  let len := len0 % 2 ^ 32
  let fraglen := fraglen0 % 2 ^ 32
  let inval : FfaOut :=
    ⟨ffa_to_smccc_res FFA_RET_INVALID_PARAMETERS, FFA_RET_INVALID_PARAMETERS, st, []⟩
  if addr_mbz ≠ 0 ∨ npages_mbz ≠ 0 ∨ fraglen > len ∨
      fraglen > KVM_FFA_MBOX_NR_PAGES * PAGE_SIZE then inval
  else if fraglen < FFA_MEM_REGION_SZ + FFA_MEM_ATTRS_SZ then inval
  -- fragmentation is rejected for guests
  else if vm_handle ≠ 0 ∧ len ≠ fraglen then inval
  -- allocation of the transfer record (guest only)
  else if vm_handle ≠ 0 ∧ orc.allocOk 0 = false then
    ⟨ffa_to_smccc_res (-ENOMEM), -ENOMEM, st, []⟩
  else if (getEndp st vm_handle).tx = none then inval
  else
    let offset := txdesc.composite_off
    if offset = 0 ∨ txdesc.ep_count ≠ 1 then inval
    else if fraglen < offset + FFA_COMPOSITE_SZ then inval
    else if (fraglen - offset - FFA_COMPOSITE_SZ) % FFA_RANGE_SZ ≠ 0 then inval
    else
      let nr_ranges := (fraglen - offset - FFA_COMPOSITE_SZ) / FFA_RANGE_SZ
      let reg := txdesc.region
      if vm_handle ≠ 0 then
        if is_page_count_valid reg nr_ranges = false then inval
        else if reg.total_pg_cnt * FFA_RANGE_SZ + offset > PAGE_SIZE then inval
        else
          let p := ffa_guest_share_ranges orc (reg.constituents.take nr_ranges) st [] 1
          if p.1 ≠ 0 then ⟨ffa_to_smccc_res p.1, p.1, p.2.1, []⟩
          else
            let painted := p.2.2.2
            -- re-adjust len/fraglen/nr_ranges only when the painted
            -- count exceeds the declared addr_range_cnt field
            let adjust := painted.length > reg.addr_range_cnt
            let extra := (painted.length - reg.addr_range_cnt) * FFA_RANGE_SZ
            let len1 := if adjust then len + extra else len
            let fraglen1 := if adjust then fraglen + extra else fraglen
            let nr1 := if adjust then painted.length else nr_ranges
            -- staged constituents after the memcpy of the painted entries
            let view := painted ++ (reg.constituents.take nr_ranges).drop painted.length
            let c := SecureCall.memXfer func_id len1 fraglen1
            let r := orc.smc c
            let okResp : Prop :=
              if fraglen1 ≠ len1 then r.a0 = FFA_MEM_FRAG_RX ∧ r.a3 = fraglen1
              else r.a0 = FFA_SUCCESS
            if okResp then
              let e := getEndp p.2.1 vm_handle
              ⟨r, 0,
               setEndp p.2.1 vm_handle
                 { e with xfer_list :=
                     ⟨PACK_HANDLE r.a2 r.a3, p.2.2.1⟩ :: e.xfer_list },
               [c]⟩
            else
              -- err_unshare (guest): roll back nr1 staged entries
              let q := ffa_guest_unshare_ranges orc (view.take nr1) p.2.2.1 p.2.1
              ⟨r, 0, q.2, [c]⟩
      else
        let ranges := reg.constituents.take nr_ranges
        let s := ffa_host_share_ranges orc ranges st.hostShared
        if s.1 ≠ 0 then
          ⟨ffa_to_smccc_res s.1, s.1, { st with hostShared := s.2 }, []⟩
        else
          let st1 := { st with hostShared := s.2 }
          let c := SecureCall.memXfer func_id len fraglen
          let r := orc.smc c
          let okResp : Prop :=
            if fraglen ≠ len then r.a0 = FFA_MEM_FRAG_RX ∧ r.a3 = fraglen
            else r.a0 = FFA_SUCCESS
          if okResp then ⟨r, 0, st1, [c]⟩
          else
            -- err_unshare (host)
            let q := ffa_host_unshare_ranges orc ranges st1.hostShared
            ⟨r, 0, { st1 with hostShared := q.2 }, [c]⟩

/-- do_ffa_mem_frag_tx. `txRanges` is the address-range array content
of the calling endpoint TX buffer at the time of the staging memcpy. -/
def do_ffa_mem_frag_tx (orc : Oracle) (st : FfaState) (vm_handle : Nat)
    (lo0 hi0 fraglen0 epid0 : Nat) (txRanges : List FfaAddrRange) : FfaOut :=
  let lo := lo0 % 2 ^ 32
  let hi := hi0 % 2 ^ 32
  let fraglen := fraglen0 % 2 ^ 32
  let epid := epid0 % 2 ^ 32
  let inval : FfaOut :=
    ⟨ffa_to_smccc_res FFA_RET_INVALID_PARAMETERS, FFA_RET_INVALID_PARAMETERS, st, []⟩
  if fraglen > KVM_FFA_MBOX_NR_PAGES * PAGE_SIZE then inval
  else if fraglen % FFA_RANGE_SZ ≠ 0 then inval
  else if (getEndp st vm_handle).tx = none then inval
  else
    let ranges := txRanges.take (fraglen / FFA_RANGE_SZ)
    let s := ffa_host_share_ranges orc ranges st.hostShared
    if s.1 ≠ 0 then
      -- abort the whole transaction: reclaim the entire transfer,
      -- then surface the local sharing failure
      ⟨ffa_to_smccc_res s.1, s.1, { st with hostShared := s.2 },
       [SecureCall.memReclaim lo hi 0]⟩
    else
      let st1 := { st with hostShared := s.2 }
      let c := SecureCall.fragTx lo hi fraglen epid
      let r := orc.smc c
      if r.a0 ≠ FFA_SUCCESS ∧ r.a0 ≠ FFA_MEM_FRAG_RX then
        -- secure side rejected the fragment: unshare only the ranges
        -- of this fragment and return the secure status
        let q := ffa_host_unshare_ranges orc ranges st1.hostShared
        ⟨r, 0, { st1 with hostShared := q.2 }, [c]⟩
      else ⟨r, 0, st1, [c]⟩

/-! ## Reclaim -/

def find_transfer_by_handle_locked (handle : Nat) (e : EndpBuf) :
    Option FfaMemTransfer :=
  e.xfer_list.find? (fun t => t.ffa_handle == handle)

/-- Host lookup loop over the guest endpoint slots (1..KVM_MAX_PVMS). -/
def findGuestTransfer (st : FfaState) (handle : Nat) :
    Option (Nat × FfaMemTransfer) :=
  ((List.range KVM_MAX_PVMS).drop 1).findSome? fun i =>
    (find_transfer_by_handle_locked handle (getEndp st i)).map (fun t => (i, t))

/-- Fragmented FFA_MEM_RETRIEVE_RESP reassembly loop. The fuel bounds
the iteration count (the C loop advances fragoff by the fraglen of
each response and can only terminate if the SPMD makes progress). -/
def reclaimFragLoop (orc : Oracle) (lo hi len : Nat) :
    Nat → Nat → Int × List SecureCall
  | 0, _ => (0, [])
  | fuel + 1, fragoff =>
    if fragoff < len then
      let c := SecureCall.fragRx lo hi fragoff
      let r := orc.smc c
      if r.a0 ≠ FFA_MEM_FRAG_TX then (FFA_RET_INVALID_PARAMETERS, [c])
      else
        let p := reclaimFragLoop orc lo hi len fuel (fragoff + r.a3)
        (p.1, c :: SecureCall.rxRelease :: p.2)
    else (0, [])

/-- Continuation of do_ffa_mem_reclaim after the transfer lookup
(lines building the retrieve request onwards); the retrieve-request
SMC itself is issued and traced by the caller. -/
def do_ffa_mem_reclaim_cont (orc : Oracle) (st : FfaState)
    (vm_handle lo hi flags : Nat)
    (transfer : Option (Nat × FfaMemTransfer)) : FfaOut :=
  let r := orc.smc (SecureCall.retrieveReq FFA_MEM_REGION_SZ)
  if r.a0 ≠ FFA_MEM_RETRIEVE_RESP then ⟨r, 0, st, []⟩
  else
    let len := r.a1
    let fraglen := r.a2
    let offset := orc.retrievedOffset
    if offset > len ∨ fraglen > KVM_FFA_MBOX_NR_PAGES * PAGE_SIZE then
      ⟨ffa_to_smccc_res FFA_RET_ABORTED, FFA_RET_ABORTED, st, [SecureCall.rxRelease]⟩
    else if len > ffa_desc_buf_len then
      ⟨ffa_to_smccc_res FFA_RET_NO_MEMORY, FFA_RET_NO_MEMORY, st, [SecureCall.rxRelease]⟩
    else
      let fl := reclaimFragLoop orc lo hi len (len + 1) fraglen
      if fl.1 ≠ 0 then
        ⟨ffa_to_smccc_res fl.1, fl.1, st, SecureCall.rxRelease :: fl.2⟩
      else
        let c := SecureCall.memReclaim lo hi flags
        let r2 := orc.smc c
        if r2.a0 ≠ FFA_SUCCESS then
          ⟨r2, 0, st, SecureCall.rxRelease :: fl.2 ++ [c]⟩
        else
          -- unshare the ranges named by the retrieved descriptor
          let ranges := orc.retrievedRanges.take orc.retrievedRangeCnt
          let st1 :=
            if vm_handle ≠ 0 then
              match transfer with
              | some (_, t) =>
                (ffa_guest_unshare_ranges orc ranges t.translations st).2
              | none => st
            else
              { st with hostShared := (ffa_host_unshare_ranges orc ranges st.hostShared).2 }
          -- delete the transfer record when one was found
          let st2 :=
            match transfer with
            | some (i, t) =>
              let e := getEndp st1 i
              setEndp st1 i
                { e with xfer_list :=
                    e.xfer_list.eraseP (fun x => x.ffa_handle == t.ffa_handle) }
            | none => st1
          ⟨r2, 0, st2, SecureCall.rxRelease :: fl.2 ++ [c]⟩

/-- do_ffa_mem_reclaim. A guest may only name a handle from its own
transfer list; for the host a collision with a guest transfer is only
WARNed about and the reclaim proceeds. -/
def do_ffa_mem_reclaim (orc : Oracle) (st : FfaState) (vm_handle : Nat)
    (lo0 hi0 flags0 : Nat) : FfaOut :=
  let lo := lo0 % 2 ^ 32
  let hi := hi0 % 2 ^ 32
  let flags := flags0 % 2 ^ 32
  let handle := PACK_HANDLE lo hi
  if vm_handle ≠ 0 then
    match find_transfer_by_handle_locked handle (getEndp st vm_handle) with
    | none =>
      ⟨ffa_to_smccc_res FFA_RET_INVALID_PARAMETERS, FFA_RET_INVALID_PARAMETERS, st, []⟩
    | some t =>
      let o := do_ffa_mem_reclaim_cont orc st vm_handle lo hi flags
        (some (vm_handle, t))
      ⟨o.res, o.ret, o.st, SecureCall.retrieveReq FFA_MEM_REGION_SZ :: o.trace⟩
  else
    -- WARN_ON(transfer): collision with a guest transfer is not a
    -- rejection; the lookup result is carried along for the final
    -- list deletion
    let tr := findGuestTransfer st handle
    let o := do_ffa_mem_reclaim_cont orc st 0 lo hi flags tr
    ⟨o.res, o.ret, o.st, SecureCall.retrieveReq FFA_MEM_REGION_SZ :: o.trace⟩

/-! ## Version negotiation -/

def FFA_MAJOR_VERSION (v : Nat) : Nat := (v >>> 16) &&& 0x7fff
def FFA_MINOR_VERSION (v : Nat) : Nat := v &&& 0xffff

def FFA_FEAT_RXTX_MIN_SZ_4K : Nat := 0
def FFA_FEAT_RXTX_MIN_SZ_64K : Nat := 1
def FFA_FEAT_RXTX_MIN_SZ_16K : Nat := 2

/-- hyp_ffa_post_init: probe the FF-A id and the minimum mailbox
granularity; reject a granularity larger than the page size. -/
def hyp_ffa_post_init (orc : Oracle) : Int × List SecureCall :=
  let r := orc.smc SecureCall.idGet
  if r.a0 ≠ FFA_SUCCESS then (-EOPNOTSUPP, [SecureCall.idGet])
  else if r.a2 ≠ HOST_FFA_ID then (-EINVAL, [SecureCall.idGet])
  else
    let c := SecureCall.features FFA_FN64_RXTX_MAP
    let r2 := orc.smc c
    if r2.a0 ≠ FFA_SUCCESS then (-EOPNOTSUPP, [SecureCall.idGet, c])
    else if r2.a2 = FFA_FEAT_RXTX_MIN_SZ_4K then
      (if 4096 > PAGE_SIZE then -EOPNOTSUPP else 0, [SecureCall.idGet, c])
    else if r2.a2 = FFA_FEAT_RXTX_MIN_SZ_16K then
      (if 16384 > PAGE_SIZE then -EOPNOTSUPP else 0, [SecureCall.idGet, c])
    else if r2.a2 = FFA_FEAT_RXTX_MIN_SZ_64K then
      (if 65536 > PAGE_SIZE then -EOPNOTSUPP else 0, [SecureCall.idGet, c])
    else (-EINVAL, [SecureCall.idGet, c])

/-- do_ffa_version. Returns the full smccc result (the a1..a3 leftovers
of a downgrade query are preserved, as in the C out-parameter). -/
def do_ffa_version (orc : Oracle) (st : FfaState) (req0 : Nat) :
    ArmSmcccRes × FfaState × List SecureCall :=
  let req := req0 % 2 ^ 32
  if FFA_MAJOR_VERSION req ≠ 1 then
    ({ a0 := u64ofInt FFA_RET_NOT_SUPPORTED }, st, [])
  else if st.has_version_negotiated then
    ({ a0 := st.hyp_ffa_version }, st, [])
  else if FFA_MINOR_VERSION req < FFA_MINOR_VERSION st.hyp_ffa_version then
    -- a requested downgrade must be accepted by the TEE first
    let c := SecureCall.version req
    let r := orc.smc c
    if r.a0 = u64ofInt FFA_RET_NOT_SUPPORTED then (r, st, [c])
    else
      let st1 := { st with hyp_ffa_version := req }
      let p := hyp_ffa_post_init orc
      if p.1 ≠ 0 then
        ({ r with a0 := u64ofInt FFA_RET_NOT_SUPPORTED }, st1, c :: p.2)
      else
        ({ r with a0 := st1.hyp_ffa_version },
         { st1 with has_version_negotiated := true }, c :: p.2)
  else
    let p := hyp_ffa_post_init orc
    if p.1 ≠ 0 then ({ a0 := u64ofInt FFA_RET_NOT_SUPPORTED }, st, p.2)
    else ({ a0 := st.hyp_ffa_version },
          { st with has_version_negotiated := true }, p.2)

/-! ## Features, partition info, dispatch -/

/-- ffa_call_supported: the deny-list of deliberately unsupported
operation codes. -/
def ffa_call_supported (func_id : Nat) : Bool :=
  ¬(func_id = FFA_FN64_MEM_RETRIEVE_REQ ∨ func_id = FFA_MEM_RETRIEVE_RESP ∨
    func_id = FFA_MEM_RELINQUISH ∨ func_id = FFA_MEM_OP_PAUSE ∨
    func_id = FFA_MEM_OP_RESUME ∨ func_id = FFA_MEM_FRAG_RX ∨
    func_id = FFA_FN64_MEM_DONATE ∨ func_id = FFA_MSG_SEND ∨
    func_id = FFA_MSG_POLL ∨ func_id = FFA_MSG_WAIT ∨
    func_id = FFA_MSG_SEND_DIRECT_RESP ∨ func_id = FFA_RXTX_MAP ∨
    func_id = FFA_MEM_DONATE ∨ func_id = FFA_MEM_RETRIEVE_REQ)

/-- do_ffa_features: `none` means the call was not handled here and
falls through to the dispatcher default. -/
def do_ffa_features (id0 : Nat) : Option ArmSmcccRes :=
  let id := id0 % 2 ^ 32
  if ffa_call_supported id = false then
    some (ffa_to_smccc_res_prop FFA_RET_NOT_SUPPORTED 0)
  else if id = FFA_MEM_SHARE ∨ id = FFA_FN64_MEM_SHARE ∨
      id = FFA_MEM_LEND ∨ id = FFA_FN64_MEM_LEND then
    some (ffa_to_smccc_res_prop FFA_RET_SUCCESS 0)
  else none

def FFA_1_0_PARTITON_INFO_SZ : Nat := 8

/-- do_ffa_part_get. -/
def do_ffa_part_get (orc : Oracle) (st : FfaState) (vm_handle : Nat)
    (u0 u1 u2 u3 flags0 : Nat) : FfaOut :=
  let flags := flags0 % 2 ^ 32
  if (getEndp st vm_handle).rx = none then
    ⟨ffa_to_smccc_res FFA_RET_BUSY, FFA_RET_BUSY, st, []⟩
  else
    let c := SecureCall.partInfoGet (u0 % 2 ^ 32) (u1 % 2 ^ 32) (u2 % 2 ^ 32)
      (u3 % 2 ^ 32) flags
    let r := orc.smc c
    if r.a0 ≠ FFA_SUCCESS then ⟨r, 0, st, [c]⟩
    else if r.a2 = 0 then ⟨r, 0, st, [c]⟩
    else
      let szOpt : Option Nat :=
        if st.hyp_ffa_version > FFA_VERSION_1_0 then
          if flags &&& 1 = 1 then none else some r.a3
        else some FFA_1_0_PARTITON_INFO_SZ
      match szOpt with
      | none => ⟨r, 0, st, [c]⟩
      | some partition_sz =>
        if partition_sz * r.a2 > KVM_FFA_MBOX_NR_PAGES * PAGE_SIZE then
          ⟨ffa_to_smccc_res FFA_RET_ABORTED, FFA_RET_ABORTED, st, [c]⟩
        else if st.sp_ids ≠ [] then ⟨r, 0, st, [c]⟩
        else
          let cnt := min r.a2 FFA_MAX_REGISTERED_SP_IDS
          let ids := ((List.range cnt).filter (fun i => orc.partAvail i)).map
            orc.partId
          ⟨r, 0, { st with sp_ids := ids }, [c]⟩

/-- Caller-visible registers of the trapped call. -/
structure Regs where
  r1 : Nat := 0
  r2 : Nat := 0
  r3 : Nat := 0
  r4 : Nat := 0
  r5 : Nat := 0
deriving DecidableEq, Repr

/-- is_ffa_call: fast standard-service calls in the FF-A function-id
range, 32- or 64-bit convention. -/
def is_ffa_call (func_id : Nat) : Bool :=
  (0x84000060 ≤ func_id ∧ func_id ≤ 0x8400007F) ∨
  (0xC4000060 ≤ func_id ∧ func_id ≤ 0xC400007F)

/-- Observable outcome of kvm_host_ffa_handler: whether the call was
reported handled (false = the caller forwards the SMC to EL3
unmodified), the result written to the host registers when
ffa_set_retval runs, the post state and the secure-call trace. -/
structure HostHandlerOut where
  handled : Bool
  written : Option ArmSmcccRes
  st : FfaState
  trace : List SecureCall
deriving DecidableEq

/-- kvm_host_ffa_handler. `txdesc`/`txRanges` stand for the host TX
buffer content consumed by the staging memcpy of the respective
operations. -/
def kvm_host_ffa_handler (orc : Oracle) (st : FfaState) (func_id0 : Nat)
    (regs : Regs) (txdesc : FfaMemRegionDesc) (txRanges : List FfaAddrRange) :
    HostHandlerOut :=
  let func_id := func_id0 % 2 ^ 32
  if is_ffa_call func_id = false then ⟨false, none, st, []⟩
  else if st.has_version_negotiated = false ∧ func_id ≠ FFA_VERSION_FUNC then
    -- an INVALID_PARAMETERS error is computed into res, but the jump
    -- to the trace label skips ffa_set_retval: nothing is written back
    ⟨true, none, st, []⟩
  else if func_id = FFA_FEATURES then
    match do_ffa_features regs.r1 with
    | some r => ⟨true, some r, st, []⟩
    | none => ⟨false, none, st, []⟩
  else if func_id = FFA_FN64_RXTX_MAP then
    let o := do_ffa_rxtx_map orc st HOST_FFA_ID regs.r1 regs.r2 regs.r3
    ⟨true, some o.res, o.st, o.trace⟩
  else if func_id = FFA_RXTX_UNMAP then
    let o := do_ffa_rxtx_unmap orc st HOST_FFA_ID regs.r1
    ⟨true, some o.res, o.st, o.trace⟩
  else if func_id = FFA_MEM_SHARE ∨ func_id = FFA_FN64_MEM_SHARE then
    let o := __do_ffa_mem_xfer orc st FFA_FN64_MEM_SHARE HOST_FFA_ID
      regs.r1 regs.r2 regs.r3 regs.r4 txdesc
    ⟨true, some o.res, o.st, o.trace⟩
  else if func_id = FFA_MEM_RECLAIM then
    let o := do_ffa_mem_reclaim orc st HOST_FFA_ID regs.r1 regs.r2 regs.r3
    ⟨true, some o.res, o.st, o.trace⟩
  else if func_id = FFA_MEM_LEND ∨ func_id = FFA_FN64_MEM_LEND then
    let o := __do_ffa_mem_xfer orc st FFA_FN64_MEM_LEND HOST_FFA_ID
      regs.r1 regs.r2 regs.r3 regs.r4 txdesc
    ⟨true, some o.res, o.st, o.trace⟩
  else if func_id = FFA_MEM_FRAG_TX then
    let o := do_ffa_mem_frag_tx orc st HOST_FFA_ID regs.r1 regs.r2 regs.r3
      regs.r4 txRanges
    ⟨true, some o.res, o.st, o.trace⟩
  else if func_id = FFA_VERSION_FUNC then
    let o := do_ffa_version orc st regs.r1
    ⟨true, some o.1, o.2.1, o.2.2⟩
  else if func_id = FFA_PARTITION_INFO_GET then
    let o := do_ffa_part_get orc st HOST_FFA_ID regs.r1 regs.r2 regs.r3
      regs.r4 regs.r5
    ⟨true, some o.res, o.st, o.trace⟩
  else if ffa_call_supported func_id then ⟨false, none, st, []⟩
  else ⟨true, some (ffa_to_smccc_error FFA_RET_NOT_SUPPORTED), st, []⟩

/-- Observable outcome of kvm_guest_ffa_handler: `retOk` is the boolean
the handler returns (false = exit to the host to satisfy a request and
re-enter), `forwarded` records the unhandled path that attaches the
endpoint id and forwards the call through the host SMC path. -/
structure GuestHandlerOut where
  retOk : Bool
  written : Option ArmSmcccRes
  forwarded : Bool
  st : FfaState
  trace : List SecureCall
deriving DecidableEq

/-- kvm_guest_ffa_handler. -/
def kvm_guest_ffa_handler (orc : Oracle) (st : FfaState)
    (ffa_supported : Bool) (vm_handle : Nat) (func_id : Nat) (regs : Regs)
    (txdesc : FfaMemRegionDesc) (_txRanges : List FfaAddrRange) :
    GuestHandlerOut :=
  if ffa_supported = false then ⟨true, none, false, st, []⟩
  else if is_ffa_call func_id = false then ⟨true, none, true, st, []⟩
  else if func_id = FFA_FEATURES then
    match do_ffa_features regs.r1 with
    | some r => ⟨true, some r, false, st, []⟩
    | none => ⟨true, none, true, st, []⟩
  else if func_id = FFA_VERSION_FUNC then
    let o := do_ffa_version orc st regs.r1
    ⟨true, some o.1, false, o.2.1, o.2.2⟩
  else if func_id = FFA_FN64_RXTX_MAP then
    let o := do_ffa_rxtx_map orc st vm_handle regs.r1 regs.r2 regs.r3
    ⟨decide (0 ≤ o.ret), if 0 ≤ o.ret then some o.res else none, false,
     o.st, o.trace⟩
  else if func_id = FFA_RXTX_UNMAP then
    let o := do_ffa_rxtx_unmap orc st vm_handle regs.r1
    ⟨true, some o.res, false, o.st, o.trace⟩
  else if func_id = FFA_MEM_SHARE ∨ func_id = FFA_FN64_MEM_SHARE then
    let o := __do_ffa_mem_xfer orc st FFA_FN64_MEM_SHARE vm_handle
      regs.r1 regs.r2 regs.r3 regs.r4 txdesc
    ⟨decide (0 ≤ o.ret), if 0 ≤ o.ret then some o.res else none, false,
     o.st, o.trace⟩
  else if func_id = FFA_MEM_RECLAIM then
    let o := do_ffa_mem_reclaim orc st vm_handle regs.r1 regs.r2 regs.r3
    ⟨true, some o.res, false, o.st, o.trace⟩
  else if func_id = FFA_MEM_LEND ∨ func_id = FFA_FN64_MEM_LEND then
    let o := __do_ffa_mem_xfer orc st FFA_FN64_MEM_LEND vm_handle
      regs.r1 regs.r2 regs.r3 regs.r4 txdesc
    ⟨decide (0 ≤ o.ret), if 0 ≤ o.ret then some o.res else none, false,
     o.st, o.trace⟩
  else if func_id = FFA_ID_GET then
    ⟨true, some (ffa_to_smccc_res_prop FFA_RET_SUCCESS vm_handle), false, st, []⟩
  else if func_id = FFA_PARTITION_INFO_GET then
    let o := do_ffa_part_get orc st vm_handle regs.r1 regs.r2 regs.r3
      regs.r4 regs.r5
    ⟨true, some o.res, false, o.st, o.trace⟩
  else if ffa_call_supported func_id then ⟨true, none, true, st, []⟩
  else ⟨true, some (ffa_to_smccc_error FFA_RET_NOT_SUPPORTED), false, st, []⟩

/-! ## Concrete environments used by the witnesses and evaluations -/

/-- A benign environment: every page owned and pinnable, identity
stage-2 translation, allocations succeed, the secure side answers
everything with zeroed registers. -/
def oracleNull : Oracle where
  hostOwned := fun _ => true
  guestOwned := fun _ => true
  ipa2pa := fun a => a
  pinOk := fun _ => true
  allocOk := fun _ => true
  smc := fun _ => {}
  retrievedOffset := 0
  retrievedRangeCnt := 0
  retrievedRanges := []
  partId := fun _ => 0
  partAvail := fun _ => false

/-- Environment for the C5 run: everything succeeds except pinning the
guest RX page. -/
def c5Oracle : Oracle := { oracleNull with pinOk := fun a => a == 4096 }

/-- Environment for the C6 run: the secure side fails the hypervisor
mailbox RXTX_MAP SMC. -/
def c6Oracle : Oracle :=
  { oracleNull with
    smc := fun c =>
      match c with
      | SecureCall.rxtxMap _ =>
        { a0 := FFA_ERROR, a2 := u64ofInt FFA_RET_NO_MEMORY }
      | _ => {} }

/-- A state with the host mailboxes mapped, as left by a successful
host RXTX map. -/
def hostMappedSt : FfaState :=
  { endp := List.set (List.replicate KVM_MAX_PVMS ({} : EndpBuf)) 0
      { tx := some 4096, rx := some 8192 } }

/-- Environment for the C4 counterexample: the secure side rejects the
forwarded fragment. -/
def c4Oracle : Oracle :=
  { oracleNull with
    smc := fun c =>
      match c with
      | SecureCall.fragTx _ _ _ _ =>
        { a0 := FFA_ERROR, a2 := u64ofInt FFA_RET_INVALID_PARAMETERS }
      | _ => {} }

/-- Environment in which the stage-2 authority refuses every host FFA
share (no page is in the OWNED state). -/
def c4FailOracle : Oracle := { oracleNull with hostOwned := fun _ => false }

def isReclaimCall : SecureCall → Bool
  | SecureCall.memReclaim _ _ _ => true
  | _ => false

/-- A state in which guest 1 has one live transfer with handle 77
covering the guest page at IPA 4096 (identity-translated). -/
def c2St : FfaState :=
  { endp := List.set (List.replicate KVM_MAX_PVMS ({} : EndpBuf)) 1
      { xfer_list := [⟨77, [⟨4096, 4096⟩]⟩] },
    guestSharedIpa := {4096}, guestSharedPa := {4096} }

/-- Environment for the C2 counterexample: the SPMD resolves the
handle with a single-fragment retrieve response and accepts the
reclaim. -/
def c2Oracle : Oracle :=
  { oracleNull with
    smc := fun c =>
      match c with
      | SecureCall.retrieveReq _ =>
        { a0 := FFA_MEM_RETRIEVE_RESP, a1 := 64, a2 := 64 }
      | SecureCall.memReclaim _ _ _ => { a0 := FFA_SUCCESS }
      | _ => {},
    retrievedOffset := 32,
    retrievedRangeCnt := 1,
    retrievedRanges := [⟨4096, 1⟩] }

/-- A state in which guest 1 has its mailboxes mapped. -/
def guestMappedSt : FfaState :=
  { endp := List.set (List.replicate KVM_MAX_PVMS ({} : EndpBuf)) 1
      { tx := some 4096, rx := some 8192 } }

/-- Environment for the C8 counterexample: no guest page is resident,
so the first attempted page share faults. -/
def c8Oracle : Oracle := { oracleNull with guestOwned := fun _ => false }

/-- The wrap descriptor: two ranges of 2^31 pages each (integer sum
2^32) with a declared total of 0; the u32 page-count check passes. -/
def c8Desc : FfaMemRegionDesc := ⟨1, 80, ⟨0, 0, [⟨4096, 2 ^ 31⟩, ⟨2 ^ 40, 2 ^ 31⟩]⟩⟩

/-- Environment for the C1 run: the secure side denies the forwarded
share. -/
def c1Oracle : Oracle :=
  { oracleNull with
    smc := fun c =>
      match c with
      | SecureCall.memXfer _ _ _ =>
        { a0 := FFA_ERROR, a2 := u64ofInt FFA_RET_DENIED }
      | _ => {} }

/-- The C1 descriptor: one range of two pages, with a declared
addr_range_cnt of 2. The per-page painting produces 2 one-page ranges,
which is not strictly greater than the declared count, so the
nr_ranges used by the error rollback stays at the input range count
of 1. -/
def c1Desc : FfaMemRegionDesc := ⟨1, 80, ⟨2, 2, [⟨4096, 2⟩]⟩⟩

/-! ## Claim C9 -/

/-- C9: an RXTX unmap call whose first argument (the caller-supplied
endpoint id) is non-zero returns an invalid-parameters error without
touching any buffer or reference-count state, for host and guest
callers alike. -/
theorem c9_rxtx_unmap_nonzero_id (orc : Oracle) (st : FfaState)
    (vm_handle id : Nat) (h1 : id ≠ 0) (h2 : id < 2 ^ 32) :
    (do_ffa_rxtx_unmap orc st vm_handle id).res =
        ffa_to_smccc_error FFA_RET_INVALID_PARAMETERS ∧
    (do_ffa_rxtx_unmap orc st vm_handle id).st = st ∧
    (do_ffa_rxtx_unmap orc st vm_handle id).trace = [] := by
  have hmod : id % 2 ^ 32 = id := Nat.mod_eq_of_lt h2
  refine ⟨?_, ?_, ?_⟩ <;>
  · simp only [do_ffa_rxtx_unmap, hmod, HOST_FFA_ID]
    simp [h1, ffa_to_smccc_res, ffa_to_smccc_res_prop,
      FFA_RET_INVALID_PARAMETERS, FFA_RET_SUCCESS]

theorem c9_rxtx_unmap_nonzero_id_witness :
    (5 : Nat) ≠ 0 ∧ (5 : Nat) < 2 ^ 32 ∧
    ((do_ffa_rxtx_unmap oracleNull {} 1 5).res =
        ffa_to_smccc_error FFA_RET_INVALID_PARAMETERS ∧
     (do_ffa_rxtx_unmap oracleNull {} 1 5).st = {} ∧
     (do_ffa_rxtx_unmap oracleNull {} 1 5).trace = []) :=
  ⟨by decide, by decide,
   c9_rxtx_unmap_nonzero_id oracleNull {} 1 5 (by decide) (by decide)⟩

/-! ## Claim C10 -/

/-- C10: once the hypervisor mailbox reference count has reached
USHRT_MAX, a further map returns FFA_RET_BUSY without incrementing the
count and without issuing any secure-side call, so the count never
wraps. -/
theorem c10_map_hyp_buffers_busy (orc : Oracle) (st : FfaState) (n : Nat)
    (h : st.hyp_buff_refcnt = USHRT_MAX) :
    ffa_map_hyp_buffers orc st n = (FFA_RET_BUSY, st, []) := by
  simp [ffa_map_hyp_buffers, h]

theorem c10_map_hyp_buffers_busy_witness :
    ffa_map_hyp_buffers oracleNull { hyp_buff_refcnt := USHRT_MAX } 1 =
      (FFA_RET_BUSY, { hyp_buff_refcnt := USHRT_MAX }, []) :=
  c10_map_hyp_buffers_busy oracleNull { hyp_buff_refcnt := USHRT_MAX } 1 rfl

/-! ## Claim C7 -/

/-- C7 counterexample: after a successful negotiation (resolved version
1.1), a renewed negotiation call requesting major version 2 does not
return the already-resolved version; it returns NOT_SUPPORTED. -/
theorem c7_version_major_mismatch_counterexample :
    (do_ffa_version oracleNull
        { hyp_ffa_version := FFA_VERSION_1_1, has_version_negotiated := true }
        0x20000).1.a0 ≠ FFA_VERSION_1_1 ∧
    (do_ffa_version oracleNull
        { hyp_ffa_version := FFA_VERSION_1_1, has_version_negotiated := true }
        0x20000).1.a0 = u64ofInt FFA_RET_NOT_SUPPORTED := by
  constructor <;> decide

/-- C7 (amended): after negotiation has succeeded, a negotiation call
whose requested major version is 1 returns the already-resolved
version; one with a different major version returns NOT_SUPPORTED; in
both cases the state is unchanged and no secure call is issued. -/
theorem c7_version_idempotent_amended (orc : Oracle) (st : FfaState)
    (req : Nat) (h : st.has_version_negotiated = true) (h2 : req < 2 ^ 32) :
    (FFA_MAJOR_VERSION req = 1 →
      do_ffa_version orc st req = ({ a0 := st.hyp_ffa_version }, st, [])) ∧
    (FFA_MAJOR_VERSION req ≠ 1 →
      do_ffa_version orc st req =
        ({ a0 := u64ofInt FFA_RET_NOT_SUPPORTED }, st, [])) := by
  have hmod : req % 2 ^ 32 = req := Nat.mod_eq_of_lt h2
  constructor <;> intro hm <;>
  · simp only [do_ffa_version, hmod]
    simp [hm, h]

theorem c7_version_idempotent_amended_witness :
    (FFA_MAJOR_VERSION FFA_VERSION_1_0 = 1 →
      do_ffa_version oracleNull
        { hyp_ffa_version := FFA_VERSION_1_1, has_version_negotiated := true }
        FFA_VERSION_1_0 =
        ({ a0 := FFA_VERSION_1_1 },
         { hyp_ffa_version := FFA_VERSION_1_1, has_version_negotiated := true },
         [])) ∧
    (FFA_MAJOR_VERSION FFA_VERSION_1_0 ≠ 1 →
      do_ffa_version oracleNull
        { hyp_ffa_version := FFA_VERSION_1_1, has_version_negotiated := true }
        FFA_VERSION_1_0 =
        ({ a0 := u64ofInt FFA_RET_NOT_SUPPORTED },
         { hyp_ffa_version := FFA_VERSION_1_1, has_version_negotiated := true },
         [])) :=
  c7_version_idempotent_amended oracleNull
    { hyp_ffa_version := FFA_VERSION_1_1, has_version_negotiated := true }
    FFA_VERSION_1_0 rfl (by decide)

/-! ## Claim C5 -/

/-- C5 (code bug): in a guest mailbox map where both shares and the TX
pin succeed and only the RX pin (the second of the two pin operations)
fails, the call returns an error but leaves both buffer pages shared
with the hypervisor: the error labels of ffa_map_guest_buffers are
stacked in the wrong order, so the two unshare steps are skipped. -/
theorem c5_map_guest_buffers_unwind_bug :
    (ffa_map_guest_buffers c5Oracle {} 4096 8192).1 ≠ 0 ∧
    4096 ∈ (ffa_map_guest_buffers c5Oracle {} 4096 8192).2.1.guestHypSharedIpa ∧
    8192 ∈ (ffa_map_guest_buffers c5Oracle {} 4096 8192).2.1.guestHypSharedIpa := by
  refine ⟨?_, ?_, ?_⟩ <;> decide

/-! ## Claim C6 -/

/-- C6 (code bug): when the secure side fails the mailbox map SMC on
the 0 -> 1 transition, ffa_map_hyp_buffers does not roll its increment
back; the RXTX map call fails with no endpoint mapped, yet the
reference count is left at 1, breaking the claimed equality between
the count and the number of mapped endpoints. -/
theorem c6_refcnt_leak_bug :
    (do_ffa_rxtx_map c6Oracle {} 0 4096 8192 1).res.a0 = FFA_ERROR ∧
    (do_ffa_rxtx_map c6Oracle {} 0 4096 8192 1).st.hyp_buff_refcnt = 1 ∧
    ((do_ffa_rxtx_map c6Oracle {} 0 4096 8192 1).st.endp.filter
        (fun e => e.tx.isSome)).length = 0 ∧
    (do_ffa_rxtx_map c6Oracle {} 0 4096 8192 1).st.hyp_buff_refcnt ≠
      ((do_ffa_rxtx_map c6Oracle {} 0 4096 8192 1).st.endp.filter
        (fun e => e.tx.isSome)).length := by
  refine ⟨?_, ?_, ?_, ?_⟩ <;> decide

/-! ## Claim C3 -/

/-- C3 counterexample: with version negotiation not yet completed, a
guest FFA_ID_GET call is processed normally and succeeds (its result
is written back with FFA_SUCCESS), instead of being refused with an
error: the guest handler has no negotiation gate at all. -/
theorem c3_guest_ungated_counterexample :
    (kvm_guest_ffa_handler oracleNull {} true 1 FFA_ID_GET {}
        ⟨0, 0, ⟨0, 0, []⟩⟩ []).written =
      some { a0 := FFA_SUCCESS, a2 := 1 } ∧
    ({} : FfaState).has_version_negotiated = false := by
  constructor <;> decide

/-- A refused operation code is one of the fourteen deny-listed
function ids. -/
theorem ffa_call_supported_eq_false {f : Nat}
    (h : ffa_call_supported f = false) :
    f = FFA_FN64_MEM_RETRIEVE_REQ ∨ f = FFA_MEM_RETRIEVE_RESP ∨
    f = FFA_MEM_RELINQUISH ∨ f = FFA_MEM_OP_PAUSE ∨
    f = FFA_MEM_OP_RESUME ∨ f = FFA_MEM_FRAG_RX ∨
    f = FFA_FN64_MEM_DONATE ∨ f = FFA_MSG_SEND ∨
    f = FFA_MSG_POLL ∨ f = FFA_MSG_WAIT ∨
    f = FFA_MSG_SEND_DIRECT_RESP ∨ f = FFA_RXTX_MAP ∨
    f = FFA_MEM_DONATE ∨ f = FFA_MEM_RETRIEVE_REQ := by
  simp [ffa_call_supported] at h
  tauto

/-- C3 (amended): before version negotiation has completed, a
host-issued FF-A call other than FFA_VERSION is neither dispatched nor
forwarded — the handler claims it handled the call, but the computed
invalid-parameters error is never written back to the host registers.
Guest-issued calls, by contrast, are not gated on negotiation at all:
for every state — in particular before negotiation — the guest handler
takes each FF-A operation other than the negotiation call to its
normal dispatch outcome, enumerated case by case below (mailbox
map/unmap, share, lend, reclaim, features, id-get, partition-info are
processed by their operation handlers; unrecognized supported codes
are forwarded through the host SMC path; deny-listed codes are refused
with NOT_SUPPORTED; non-FF-A codes are forwarded). -/
theorem c3_negotiation_gate_amended :
    (∀ (orc : Oracle) (st : FfaState) (func_id : Nat) (regs : Regs)
        (txdesc : FfaMemRegionDesc) (txRanges : List FfaAddrRange),
      st.has_version_negotiated = false →
      is_ffa_call (func_id % 2 ^ 32) = true →
      func_id % 2 ^ 32 ≠ FFA_VERSION_FUNC →
      kvm_host_ffa_handler orc st func_id regs txdesc txRanges =
        ⟨true, none, st, []⟩) ∧
    (∀ (orc : Oracle) (st : FfaState) (vm_handle func_id : Nat) (regs : Regs)
        (txdesc : FfaMemRegionDesc) (txRanges : List FfaAddrRange),
      (kvm_guest_ffa_handler orc st false vm_handle func_id regs txdesc
          txRanges = ⟨true, none, false, st, []⟩) ∧
      (is_ffa_call func_id = false →
        kvm_guest_ffa_handler orc st true vm_handle func_id regs txdesc
          txRanges = ⟨true, none, true, st, []⟩) ∧
      (kvm_guest_ffa_handler orc st true vm_handle FFA_FEATURES regs txdesc
          txRanges =
        match do_ffa_features regs.r1 with
        | some r => ⟨true, some r, false, st, []⟩
        | none => ⟨true, none, true, st, []⟩) ∧
      (kvm_guest_ffa_handler orc st true vm_handle FFA_FN64_RXTX_MAP regs
          txdesc txRanges =
        ⟨decide (0 ≤ (do_ffa_rxtx_map orc st vm_handle regs.r1 regs.r2
            regs.r3).ret),
         if 0 ≤ (do_ffa_rxtx_map orc st vm_handle regs.r1 regs.r2 regs.r3).ret
           then some (do_ffa_rxtx_map orc st vm_handle regs.r1 regs.r2
             regs.r3).res else none,
         false,
         (do_ffa_rxtx_map orc st vm_handle regs.r1 regs.r2 regs.r3).st,
         (do_ffa_rxtx_map orc st vm_handle regs.r1 regs.r2 regs.r3).trace⟩) ∧
      (kvm_guest_ffa_handler orc st true vm_handle FFA_RXTX_UNMAP regs txdesc
          txRanges =
        ⟨true, some (do_ffa_rxtx_unmap orc st vm_handle regs.r1).res, false,
         (do_ffa_rxtx_unmap orc st vm_handle regs.r1).st,
         (do_ffa_rxtx_unmap orc st vm_handle regs.r1).trace⟩) ∧
      (func_id = FFA_MEM_SHARE ∨ func_id = FFA_FN64_MEM_SHARE →
        kvm_guest_ffa_handler orc st true vm_handle func_id regs txdesc
          txRanges =
        ⟨decide (0 ≤ (__do_ffa_mem_xfer orc st FFA_FN64_MEM_SHARE vm_handle
            regs.r1 regs.r2 regs.r3 regs.r4 txdesc).ret),
         if 0 ≤ (__do_ffa_mem_xfer orc st FFA_FN64_MEM_SHARE vm_handle regs.r1
            regs.r2 regs.r3 regs.r4 txdesc).ret
           then some (__do_ffa_mem_xfer orc st FFA_FN64_MEM_SHARE vm_handle
             regs.r1 regs.r2 regs.r3 regs.r4 txdesc).res else none,
         false,
         (__do_ffa_mem_xfer orc st FFA_FN64_MEM_SHARE vm_handle regs.r1
           regs.r2 regs.r3 regs.r4 txdesc).st,
         (__do_ffa_mem_xfer orc st FFA_FN64_MEM_SHARE vm_handle regs.r1
           regs.r2 regs.r3 regs.r4 txdesc).trace⟩) ∧
      (kvm_guest_ffa_handler orc st true vm_handle FFA_MEM_RECLAIM regs
          txdesc txRanges =
        ⟨true, some (do_ffa_mem_reclaim orc st vm_handle regs.r1 regs.r2
            regs.r3).res, false,
         (do_ffa_mem_reclaim orc st vm_handle regs.r1 regs.r2 regs.r3).st,
         (do_ffa_mem_reclaim orc st vm_handle regs.r1 regs.r2 regs.r3).trace⟩) ∧
      (func_id = FFA_MEM_LEND ∨ func_id = FFA_FN64_MEM_LEND →
        kvm_guest_ffa_handler orc st true vm_handle func_id regs txdesc
          txRanges =
        ⟨decide (0 ≤ (__do_ffa_mem_xfer orc st FFA_FN64_MEM_LEND vm_handle
            regs.r1 regs.r2 regs.r3 regs.r4 txdesc).ret),
         if 0 ≤ (__do_ffa_mem_xfer orc st FFA_FN64_MEM_LEND vm_handle regs.r1
            regs.r2 regs.r3 regs.r4 txdesc).ret
           then some (__do_ffa_mem_xfer orc st FFA_FN64_MEM_LEND vm_handle
             regs.r1 regs.r2 regs.r3 regs.r4 txdesc).res else none,
         false,
         (__do_ffa_mem_xfer orc st FFA_FN64_MEM_LEND vm_handle regs.r1
           regs.r2 regs.r3 regs.r4 txdesc).st,
         (__do_ffa_mem_xfer orc st FFA_FN64_MEM_LEND vm_handle regs.r1
           regs.r2 regs.r3 regs.r4 txdesc).trace⟩) ∧
      (kvm_guest_ffa_handler orc st true vm_handle FFA_ID_GET regs txdesc
          txRanges =
        ⟨true, some (ffa_to_smccc_res_prop FFA_RET_SUCCESS vm_handle), false,
         st, []⟩) ∧
      (kvm_guest_ffa_handler orc st true vm_handle FFA_PARTITION_INFO_GET
          regs txdesc txRanges =
        ⟨true, some (do_ffa_part_get orc st vm_handle regs.r1 regs.r2 regs.r3
            regs.r4 regs.r5).res, false,
         (do_ffa_part_get orc st vm_handle regs.r1 regs.r2 regs.r3 regs.r4
           regs.r5).st,
         (do_ffa_part_get orc st vm_handle regs.r1 regs.r2 regs.r3 regs.r4
           regs.r5).trace⟩) ∧
      (is_ffa_call func_id = true → func_id ≠ FFA_FEATURES →
        func_id ≠ FFA_VERSION_FUNC → func_id ≠ FFA_FN64_RXTX_MAP →
        func_id ≠ FFA_RXTX_UNMAP → func_id ≠ FFA_MEM_SHARE →
        func_id ≠ FFA_FN64_MEM_SHARE → func_id ≠ FFA_MEM_RECLAIM →
        func_id ≠ FFA_MEM_LEND → func_id ≠ FFA_FN64_MEM_LEND →
        func_id ≠ FFA_ID_GET → func_id ≠ FFA_PARTITION_INFO_GET →
        ffa_call_supported func_id = true →
        kvm_guest_ffa_handler orc st true vm_handle func_id regs txdesc
          txRanges = ⟨true, none, true, st, []⟩) ∧
      (ffa_call_supported func_id = false →
        kvm_guest_ffa_handler orc st true vm_handle func_id regs txdesc
          txRanges =
          ⟨true, some (ffa_to_smccc_error FFA_RET_NOT_SUPPORTED), false, st,
           []⟩)) := by
  constructor
  · intro orc st func_id regs txdesc txRanges h1 h2 h3
    have h3' : func_id % 4294967296 ≠ FFA_VERSION_FUNC := by simpa using h3
    simp only [kvm_host_ffa_handler, h1, h2]
    simp [h3]
    intro hv
    exact absurd hv h3'
  · intro orc st vm_handle func_id regs txdesc txRanges
    refine ⟨?_, ?_, ?_, ?_, ?_, ?_, ?_, ?_, ?_, ?_, ?_, ?_⟩
    · simp [kvm_guest_ffa_handler]
    · intro h
      simp [kvm_guest_ffa_handler, h]
    · simp [kvm_guest_ffa_handler, is_ffa_call, FFA_FEATURES]
    · simp [kvm_guest_ffa_handler, is_ffa_call, FFA_FEATURES,
        FFA_VERSION_FUNC, FFA_FN64_RXTX_MAP]
    · simp [kvm_guest_ffa_handler, is_ffa_call, FFA_FEATURES,
        FFA_VERSION_FUNC, FFA_FN64_RXTX_MAP, FFA_RXTX_UNMAP]
    · rintro (rfl | rfl) <;>
        simp [kvm_guest_ffa_handler, is_ffa_call, FFA_FEATURES,
          FFA_VERSION_FUNC, FFA_FN64_RXTX_MAP, FFA_RXTX_UNMAP, FFA_MEM_SHARE,
          FFA_FN64_MEM_SHARE]
    · simp [kvm_guest_ffa_handler, is_ffa_call, FFA_FEATURES,
        FFA_VERSION_FUNC, FFA_FN64_RXTX_MAP, FFA_RXTX_UNMAP, FFA_MEM_SHARE,
        FFA_FN64_MEM_SHARE, FFA_MEM_RECLAIM]
    · rintro (rfl | rfl) <;>
        simp [kvm_guest_ffa_handler, is_ffa_call, FFA_FEATURES,
          FFA_VERSION_FUNC, FFA_FN64_RXTX_MAP, FFA_RXTX_UNMAP, FFA_MEM_SHARE,
          FFA_FN64_MEM_SHARE, FFA_MEM_RECLAIM, FFA_MEM_LEND, FFA_FN64_MEM_LEND]
    · simp [kvm_guest_ffa_handler, is_ffa_call, FFA_FEATURES,
        FFA_VERSION_FUNC, FFA_FN64_RXTX_MAP, FFA_RXTX_UNMAP, FFA_MEM_SHARE,
        FFA_FN64_MEM_SHARE, FFA_MEM_RECLAIM, FFA_MEM_LEND, FFA_FN64_MEM_LEND,
        FFA_ID_GET]
    · simp [kvm_guest_ffa_handler, is_ffa_call, FFA_FEATURES,
        FFA_VERSION_FUNC, FFA_FN64_RXTX_MAP, FFA_RXTX_UNMAP, FFA_MEM_SHARE,
        FFA_FN64_MEM_SHARE, FFA_MEM_RECLAIM, FFA_MEM_LEND, FFA_FN64_MEM_LEND,
        FFA_ID_GET, FFA_PARTITION_INFO_GET]
    · intro hffa h1 h2 h3 h4 h5 h6 h7 h8 h9 h10 h11 hsupp
      simp [kvm_guest_ffa_handler, hffa, hsupp, h1, h2, h3, h4, h5, h6, h7,
        h8, h9, h10, h11]
    · intro h
      rcases ffa_call_supported_eq_false h with
        rfl | rfl | rfl | rfl | rfl | rfl | rfl | rfl | rfl | rfl | rfl |
        rfl | rfl | rfl <;>
      simp [kvm_guest_ffa_handler, is_ffa_call, ffa_call_supported,
        FFA_FEATURES, FFA_VERSION_FUNC, FFA_FN64_RXTX_MAP, FFA_RXTX_UNMAP,
        FFA_MEM_SHARE, FFA_FN64_MEM_SHARE, FFA_MEM_RECLAIM, FFA_MEM_LEND,
        FFA_FN64_MEM_LEND, FFA_ID_GET, FFA_PARTITION_INFO_GET,
        FFA_FN64_MEM_RETRIEVE_REQ, FFA_MEM_RETRIEVE_RESP, FFA_MEM_RELINQUISH,
        FFA_MEM_OP_PAUSE, FFA_MEM_OP_RESUME, FFA_MEM_FRAG_RX,
        FFA_FN64_MEM_DONATE, FFA_MSG_SEND, FFA_MSG_POLL, FFA_MSG_WAIT,
        FFA_MSG_SEND_DIRECT_RESP, FFA_RXTX_MAP, FFA_MEM_DONATE,
        FFA_MEM_RETRIEVE_REQ]

/-! ## Rollback lemmas for host range sharing -/

theorem pkvm_host_share_ffa_some (orc : Oracle) {s s' : Finset Nat}
    {pfn n : Nat} (h : pkvm_host_share_ffa orc s pfn n = some s') :
    s' = s ∪ pfnRange pfn n ∧ Disjoint (pfnRange pfn n) s := by
  unfold pkvm_host_share_ffa at h
  split at h
  · rename_i hc
    injection h with h
    exact ⟨h.symm, hc.2⟩
  · cases h

/-- The shared set only grows along the sharing loop. -/
theorem ffa_host_share_ranges_core_mono (orc : Oracle) :
    ∀ (rs : List FfaAddrRange) (s : Finset Nat),
      s ⊆ (ffa_host_share_ranges_core orc rs s).2 := by
  intro rs
  induction rs with
  | nil => intro s; simp [ffa_host_share_ranges_core]
  | cons r rs ih =>
    intro s
    simp only [ffa_host_share_ranges_core]
    split
    · exact Finset.Subset.refl s
    · cases hm : pkvm_host_share_ffa orc s (hostRangePfn r) (hostRangeNPages r) with
      | none => simp [Finset.Subset.refl]
      | some s1 =>
        obtain ⟨hs1, -⟩ := pkvm_host_share_ffa_some orc hm
        exact Finset.Subset.trans (hs1 ▸ Finset.subset_union_left) (ih s1)

/-- Unsharing the shared prefix undoes it exactly, uniformly under a
carved-out set `P` of pages that were already shared beforehand. -/
theorem ffa_host_share_ranges_core_rollback (orc : Oracle) :
    ∀ (rs : List FfaAddrRange) (s P : Finset Nat), P ⊆ s →
      ffa_host_unshare_ranges_core
          (rs.take (ffa_host_share_ranges_core orc rs s).1)
          ((ffa_host_share_ranges_core orc rs s).2 \ P)
        = ((ffa_host_share_ranges_core orc rs s).1, s \ P) := by
  intro rs
  induction rs with
  | nil =>
    intro s P _
    simp [ffa_host_share_ranges_core, ffa_host_unshare_ranges_core]
  | cons r rs ih =>
    intro s P hP
    simp only [ffa_host_share_ranges_core]
    split
    · simp [ffa_host_unshare_ranges_core]
    · rename_i halign
      cases hm : pkvm_host_share_ffa orc s (hostRangePfn r) (hostRangeNPages r) with
      | none => simp [ffa_host_unshare_ranges_core]
      | some s1 =>
        obtain ⟨hs1, hdisj⟩ := pkvm_host_share_ffa_some orc hm
        have hd := Finset.disjoint_left.mp hdisj
        set Pr := pfnRange (hostRangePfn r) (hostRangeNPages r) with hPr
        -- the freshly shared pages survive to the end of the loop and
        -- avoid both `P` and the pre-state
        have hPr_s1 : Pr ⊆ s1 := hs1 ▸ Finset.subset_union_right
        have hPr_end : Pr ⊆ (ffa_host_share_ranges_core orc rs s1).2 :=
          Finset.Subset.trans hPr_s1 (ffa_host_share_ranges_core_mono orc rs s1)
        have hPr_sub : Pr ⊆ (ffa_host_share_ranges_core orc rs s1).2 \ P := by
          intro x hx
          exact Finset.mem_sdiff.mpr
            ⟨hPr_end hx, fun hxP => hd hx (hP hxP)⟩
        have hstep : pkvm_host_unshare_ffa
            ((ffa_host_share_ranges_core orc rs s1).2 \ P)
            (hostRangePfn r) (hostRangeNPages r) =
            some (((ffa_host_share_ranges_core orc rs s1).2 \ P) \ Pr) := by
          rw [pkvm_host_unshare_ffa, if_pos hPr_sub]
        have hcomb : ((ffa_host_share_ranges_core orc rs s1).2 \ P) \ Pr =
            (ffa_host_share_ranges_core orc rs s1).2 \ (P ∪ Pr) := by
          ext x
          simp only [Finset.mem_sdiff, Finset.mem_union]
          tauto
        have hP1 : P ∪ Pr ⊆ s1 := by
          intro x hx
          rcases Finset.mem_union.mp hx with hx | hx
          · exact hs1 ▸ Finset.mem_union_left _ (hP hx)
          · exact hPr_s1 hx
        have hrec := ih s1 (P ∪ Pr) hP1
        have hfin : s1 \ (P ∪ Pr) = s \ P := by
          subst hs1
          ext x
          simp only [Finset.mem_sdiff, Finset.mem_union]
          constructor
          · rintro ⟨hx | hx, hnx⟩
            · exact ⟨hx, fun h => hnx (Or.inl h)⟩
            · exact absurd hx (fun h => hnx (Or.inr h))
          · rintro ⟨hx, hnx⟩
            exact ⟨Or.inl hx, fun h => h.elim hnx (fun h => hd h hx)⟩
        simp only [hm, List.take_succ_cons, ffa_host_unshare_ranges_core]
        rw [if_neg halign, hstep]
        simp only [hcomb, hrec, hfin]

theorem ffa_host_share_ranges_core_rollback_simple (orc : Oracle)
    (rs : List FfaAddrRange) (s : Finset Nat) :
    ffa_host_unshare_ranges_core
        (rs.take (ffa_host_share_ranges_core orc rs s).1)
        (ffa_host_share_ranges_core orc rs s).2
      = ((ffa_host_share_ranges_core orc rs s).1, s) := by
  have h := ffa_host_share_ranges_core_rollback orc rs s ∅ (Finset.empty_subset s)
  simpa using h

/-- A failed ffa_host_share_ranges reports FFA_RET_DENIED and leaves
the shared set exactly as before. -/
theorem ffa_host_share_ranges_fail (orc : Oracle) (rs : List FfaAddrRange)
    (s : Finset Nat) (h : (ffa_host_share_ranges orc rs s).1 ≠ 0) :
    ffa_host_share_ranges orc rs s = (FFA_RET_DENIED, s) := by
  simp only [ffa_host_share_ranges] at h ⊢
  split at h
  · rename_i hne
    rw [if_pos hne]
    rw [ffa_host_share_ranges_core_rollback_simple orc rs s]
  · exact absurd rfl h

/-- After a successful ffa_host_share_ranges, unsharing the same range
list succeeds and restores the pre-call shared set exactly. -/
theorem ffa_host_share_ranges_roundtrip (orc : Oracle)
    (rs : List FfaAddrRange) (s : Finset Nat)
    (h : (ffa_host_share_ranges orc rs s).1 = 0) :
    ffa_host_unshare_ranges orc rs (ffa_host_share_ranges orc rs s).2 =
      (0, s) := by
  simp only [ffa_host_share_ranges] at h ⊢
  split at h
  · simp [FFA_RET_DENIED] at h
  · rename_i hlen
    have hlen' : (ffa_host_share_ranges_core orc rs s).1 = rs.length := by
      by_contra hc
      exact hlen hc
    have hrt := ffa_host_share_ranges_core_rollback_simple orc rs s
    rw [hlen', List.take_length] at hrt
    rw [if_neg hlen]
    unfold ffa_host_unshare_ranges
    rw [hrt]
    simp [hlen']

theorem c3_negotiation_gate_amended_witness :
    (kvm_host_ffa_handler oracleNull {} FFA_MEM_SHARE {} ⟨0, 0, ⟨0, 0, []⟩⟩ [] =
      ⟨true, none, {}, []⟩) ∧
    (kvm_guest_ffa_handler oracleNull {} true 3 FFA_ID_GET {}
        ⟨0, 0, ⟨0, 0, []⟩⟩ [] =
      ⟨true, some (ffa_to_smccc_res_prop FFA_RET_SUCCESS 3), false, {}, []⟩) ∧
    (kvm_guest_ffa_handler oracleNull {} true 3 FFA_MEM_DONATE {}
        ⟨0, 0, ⟨0, 0, []⟩⟩ [] =
      ⟨true, some (ffa_to_smccc_error FFA_RET_NOT_SUPPORTED), false, {}, []⟩) :=
  ⟨c3_negotiation_gate_amended.1 oracleNull {} FFA_MEM_SHARE {}
      ⟨0, 0, ⟨0, 0, []⟩⟩ [] rfl (by decide) (by decide),
   (c3_negotiation_gate_amended.2 oracleNull {} 3 0 {}
      ⟨0, 0, ⟨0, 0, []⟩⟩ []).2.2.2.2.2.2.2.2.1,
   (c3_negotiation_gate_amended.2 oracleNull {} 3 FFA_MEM_DONATE {}
      ⟨0, 0, ⟨0, 0, []⟩⟩ []).2.2.2.2.2.2.2.2.2.2.2 (by decide)⟩

/-! ## Claim C4 -/

/-- C4 counterexample: a host fragment-continuation call whose
forwarded fragment the secure side rejects. The handler returns the
secure error, but no FFA_MEM_RECLAIM is issued to the secure side at
all on this path — contrary to the claim, the whole-transfer reclaim
happens only when sharing the fragment locally fails. -/
theorem c4_frag_tx_no_reclaim_counterexample :
    (do_ffa_mem_frag_tx c4Oracle hostMappedSt 0 7 0 16 0 [⟨65536, 1⟩]).res.a0 =
        FFA_ERROR ∧
    (do_ffa_mem_frag_tx c4Oracle hostMappedSt 0 7 0 16 0 [⟨65536, 1⟩]).trace =
        [SecureCall.fragTx 7 0 16 0] ∧
    ((do_ffa_mem_frag_tx c4Oracle hostMappedSt 0 7 0 16 0 [⟨65536, 1⟩]).trace.all
        fun c => !isReclaimCall c) = true ∧
    (do_ffa_mem_frag_tx c4Oracle hostMappedSt 0 7 0 16 0 [⟨65536, 1⟩]).st =
        hostMappedSt := by
  refine ⟨?_, ?_, ?_, ?_⟩ <;> decide

/-- C4 (amended): for a fragment-continuation call that passes the
size checks with the TX mailbox mapped: (a) when sharing the ranges of
the fragment locally fails, the handler issues a reclaim of the entire
transfer to the secure side and returns FFA_RET_DENIED with the shared
set unchanged; (b) when the local share succeeds but the secure side
rejects the forwarded fragment, only the ranges of this fragment are
unshared again (no reclaim is issued, so pages shared by earlier
fragments stay stranded) and the secure-side error — never success —
is returned. -/
theorem c4_frag_tx_amended (orc : Oracle) (st : FfaState)
    (vm_handle lo hi fraglen epid v : Nat) (txRanges : List FfaAddrRange)
    (hlo : lo < 2 ^ 32) (hhi : hi < 2 ^ 32) (hfl : fraglen < 2 ^ 32)
    (hep : epid < 2 ^ 32)
    (hsz : fraglen ≤ KVM_FFA_MBOX_NR_PAGES * PAGE_SIZE)
    (hmod : fraglen % FFA_RANGE_SZ = 0)
    (htx : (getEndp st vm_handle).tx = some v) :
    ((ffa_host_share_ranges orc (txRanges.take (fraglen / FFA_RANGE_SZ))
        st.hostShared).1 ≠ 0 →
      (do_ffa_mem_frag_tx orc st vm_handle lo hi fraglen epid txRanges).trace =
          [SecureCall.memReclaim lo hi 0] ∧
      (do_ffa_mem_frag_tx orc st vm_handle lo hi fraglen epid txRanges).res =
          ffa_to_smccc_res FFA_RET_DENIED ∧
      (do_ffa_mem_frag_tx orc st vm_handle lo hi fraglen epid txRanges).st = st) ∧
    ((ffa_host_share_ranges orc (txRanges.take (fraglen / FFA_RANGE_SZ))
        st.hostShared).1 = 0 →
      (orc.smc (SecureCall.fragTx lo hi fraglen epid)).a0 ≠ FFA_SUCCESS →
      (orc.smc (SecureCall.fragTx lo hi fraglen epid)).a0 ≠ FFA_MEM_FRAG_RX →
      (do_ffa_mem_frag_tx orc st vm_handle lo hi fraglen epid txRanges).res =
          orc.smc (SecureCall.fragTx lo hi fraglen epid) ∧
      (do_ffa_mem_frag_tx orc st vm_handle lo hi fraglen epid txRanges).trace =
          [SecureCall.fragTx lo hi fraglen epid] ∧
      (do_ffa_mem_frag_tx orc st vm_handle lo hi fraglen epid txRanges).st = st) := by
  have hlo' : lo % 2 ^ 32 = lo := Nat.mod_eq_of_lt hlo
  have hhi' : hi % 2 ^ 32 = hi := Nat.mod_eq_of_lt hhi
  have hfl' : fraglen % 2 ^ 32 = fraglen := Nat.mod_eq_of_lt hfl
  have hep' : epid % 2 ^ 32 = epid := Nat.mod_eq_of_lt hep
  have hsz' : ¬ fraglen > KVM_FFA_MBOX_NR_PAGES * PAGE_SIZE := not_lt.mpr hsz
  constructor
  · intro hfail
    have hw := ffa_host_share_ranges_fail orc
      (txRanges.take (fraglen / FFA_RANGE_SZ)) st.hostShared hfail
    simp only [do_ffa_mem_frag_tx, hlo', hhi', hfl', hep']
    rw [if_neg hsz', if_neg (by simp [hmod]), htx,
      if_neg (show ¬ (some v = none) by simp)]
    simp only [hw]
    exact ⟨rfl, rfl, rfl⟩
  · intro hok hr1 hr2
    have hrt := ffa_host_share_ranges_roundtrip orc
      (txRanges.take (fraglen / FFA_RANGE_SZ)) st.hostShared hok
    simp only [do_ffa_mem_frag_tx, hlo', hhi', hfl', hep']
    rw [if_neg hsz', if_neg (by simp [hmod]), htx,
      if_neg (show ¬ (some v = none) by simp)]
    rw [if_neg (not_not_intro hok), if_pos ⟨hr1, hr2⟩]
    simp only [hrt]
    simp

theorem c4_frag_tx_amended_witness :
    ((do_ffa_mem_frag_tx c4FailOracle hostMappedSt 0 7 0 16 0 [⟨65536, 1⟩]).trace =
        [SecureCall.memReclaim 7 0 0] ∧
     (do_ffa_mem_frag_tx c4FailOracle hostMappedSt 0 7 0 16 0 [⟨65536, 1⟩]).res =
        ffa_to_smccc_res FFA_RET_DENIED ∧
     (do_ffa_mem_frag_tx c4FailOracle hostMappedSt 0 7 0 16 0 [⟨65536, 1⟩]).st =
        hostMappedSt) ∧
    ((do_ffa_mem_frag_tx c4Oracle hostMappedSt 0 7 0 16 0 [⟨65536, 1⟩]).res =
        c4Oracle.smc (SecureCall.fragTx 7 0 16 0) ∧
     (do_ffa_mem_frag_tx c4Oracle hostMappedSt 0 7 0 16 0 [⟨65536, 1⟩]).trace =
        [SecureCall.fragTx 7 0 16 0] ∧
     (do_ffa_mem_frag_tx c4Oracle hostMappedSt 0 7 0 16 0 [⟨65536, 1⟩]).st =
        hostMappedSt) :=
  ⟨(c4_frag_tx_amended c4FailOracle hostMappedSt 0 7 0 16 0 4096 [⟨65536, 1⟩]
      (by decide) (by decide) (by decide) (by decide) (by decide) (by decide)
      (by decide)).1 (by decide),
   (c4_frag_tx_amended c4Oracle hostMappedSt 0 7 0 16 0 4096 [⟨65536, 1⟩]
      (by decide) (by decide) (by decide) (by decide) (by decide) (by decide)
      (by decide)).2 (by decide) (by decide) (by decide)⟩

/-! ## Claim C2 -/

/-- C2 counterexample: the host calls reclaim with handle 77, which is
a live transfer of guest 1. The call is not rejected: it runs to
completion, returns FFA_SUCCESS and deletes the guest transfer record
(the collision only raises a WARN), while the guest page stays marked
shared. -/
theorem c2_host_reclaim_collision_counterexample :
    (do_ffa_mem_reclaim c2Oracle c2St 0 77 0 0).res.a0 = FFA_SUCCESS ∧
    (getEndp c2St 1).xfer_list = [⟨77, [⟨4096, 4096⟩]⟩] ∧
    (getEndp (do_ffa_mem_reclaim c2Oracle c2St 0 77 0 0).st 1).xfer_list = [] ∧
    4096 ∈ (do_ffa_mem_reclaim c2Oracle c2St 0 77 0 0).st.guestSharedIpa := by
  refine ⟨?_, ?_, ?_, ?_⟩ <;> decide

/-- C2 (amended): a guest reclaim whose handle is not in the guest own
transfer list is rejected with an invalid-parameters error, with no
state change and no secure-side call; a host reclaim, by contrast, is
never rejected for naming a guest transfer handle — it always proceeds
to the secure side, starting with the retrieve request (a collision is
only WARNed about, and a completed reclaim deletes the guest
transfer, as the counterexample shows). -/
theorem c2_reclaim_amended (orc : Oracle) (st : FfaState)
    (vm_handle lo hi flags : Nat) (hlo : lo < 2 ^ 32) (hhi : hi < 2 ^ 32) :
    (vm_handle ≠ 0 →
      find_transfer_by_handle_locked (PACK_HANDLE lo hi) (getEndp st vm_handle) =
        none →
      do_ffa_mem_reclaim orc st vm_handle lo hi flags =
        ⟨ffa_to_smccc_res FFA_RET_INVALID_PARAMETERS,
         FFA_RET_INVALID_PARAMETERS, st, []⟩) ∧
    (vm_handle = 0 →
      (do_ffa_mem_reclaim orc st vm_handle lo hi flags).trace.head? =
        some (SecureCall.retrieveReq FFA_MEM_REGION_SZ)) := by
  have hlo' : lo % 2 ^ 32 = lo := Nat.mod_eq_of_lt hlo
  have hhi' : hi % 2 ^ 32 = hi := Nat.mod_eq_of_lt hhi
  constructor
  · intro hvm hfind
    simp only [do_ffa_mem_reclaim, hlo', hhi']
    rw [if_pos hvm, hfind]
  · intro hvm
    subst hvm
    simp only [do_ffa_mem_reclaim, hlo', hhi']
    simp

theorem c2_reclaim_amended_witness :
    (do_ffa_mem_reclaim oracleNull {} 1 5 0 0 =
      ⟨ffa_to_smccc_res FFA_RET_INVALID_PARAMETERS,
       FFA_RET_INVALID_PARAMETERS, {}, []⟩) ∧
    ((do_ffa_mem_reclaim c2Oracle c2St 0 77 0 0).trace.head? =
      some (SecureCall.retrieveReq FFA_MEM_REGION_SZ)) :=
  ⟨(c2_reclaim_amended oracleNull {} 1 5 0 0 (by decide) (by decide)).1
      (by decide) (by decide),
   (c2_reclaim_amended c2Oracle c2St 0 77 0 0 (by decide) (by decide)).2 rfl⟩

/-! ## Claim C8 -/

/-- C8 (amended): a guest share/lend whose descriptor declared total
page count differs, modulo 2^32 (the fields are u32 on the wire), from
the sum of the per-range page counts of its address-range list is
rejected with an invalid-parameters error, with no page shared, no
state change and no secure call — provided the transfer-record
allocation succeeds (an allocator failure instead suspends the guest
with -ENOMEM before the descriptor is even read). `hwf` states that
the fragment length covers exactly the declared address ranges, as a
well-formed encoding does. -/
theorem c8_page_count_amended (orc : Oracle) (st : FfaState)
    (func_id vm_handle len0 fraglen addr_mbz npages_mbz : Nat)
    (txdesc : FfaMemRegionDesc)
    (hvm : vm_handle ≠ 0)
    (halloc : orc.allocOk 0 = true)
    (hfl : fraglen < 2 ^ 32)
    (hwf : fraglen = txdesc.composite_off + FFA_COMPOSITE_SZ +
        FFA_RANGE_SZ * txdesc.region.constituents.length)
    (hmm : is_page_count_valid txdesc.region
        txdesc.region.constituents.length = false) :
    __do_ffa_mem_xfer orc st func_id vm_handle len0 fraglen addr_mbz
        npages_mbz txdesc =
      ⟨ffa_to_smccc_res FFA_RET_INVALID_PARAMETERS,
       FFA_RET_INVALID_PARAMETERS, st, []⟩ := by
  have hfl' : fraglen % 2 ^ 32 = fraglen := Nat.mod_eq_of_lt hfl
  have hnr : (fraglen - txdesc.composite_off - FFA_COMPOSITE_SZ) /
      FFA_RANGE_SZ = txdesc.region.constituents.length := by
    rw [hwf]
    simp only [FFA_COMPOSITE_SZ, FFA_RANGE_SZ]
    omega
  simp only [__do_ffa_mem_xfer, hfl', hnr, hmm, halloc, hvm,
    eq_self_iff_true, if_true, if_false, Bool.true_eq_false, and_false,
    and_true, true_and, false_and, ne_eq, not_false_eq_true, not_true]
  split_ifs <;> rfl

theorem c8_page_count_amended_witness :
    __do_ffa_mem_xfer oracleNull guestMappedSt FFA_FN64_MEM_SHARE 1 112 112 0 0
        ⟨1, 80, ⟨3, 1, [⟨4096, 2⟩]⟩⟩ =
      ⟨ffa_to_smccc_res FFA_RET_INVALID_PARAMETERS,
       FFA_RET_INVALID_PARAMETERS, guestMappedSt, []⟩ :=
  c8_page_count_amended oracleNull guestMappedSt FFA_FN64_MEM_SHARE 1 112 112
    0 0 ⟨1, 80, ⟨3, 1, [⟨4096, 2⟩]⟩⟩ (by decide) (by decide) (by decide)
    (by decide) (by decide)

/-- C8 counterexample: a guest share whose declared total page count
(0) differs from the integer sum of its per-range counts (2^32) is not
rejected with an invalid-parameters error: the u32 summation wraps, the
structural validation passes, and the call proceeds to the sharing
phase (here failing with -EFAULT on the first non-resident page,
which suspends the guest for fault resolution instead of rejecting). -/
theorem c8_page_count_wrap_counterexample :
    (c8Desc.region.constituents.map (fun r => r.pg_cnt)).sum = 2 ^ 32 ∧
    c8Desc.region.total_pg_cnt = 0 ∧
    is_page_count_valid c8Desc.region 2 = true ∧
    (__do_ffa_mem_xfer c8Oracle guestMappedSt FFA_FN64_MEM_SHARE 1 128 128 0 0
        c8Desc).ret = -EFAULT ∧
    (__do_ffa_mem_xfer c8Oracle guestMappedSt FFA_FN64_MEM_SHARE 1 128 128 0 0
        c8Desc).ret ≠ FFA_RET_INVALID_PARAMETERS := by
  refine ⟨?_, ?_, ?_, ?_, ?_⟩ <;> decide

/-! ## Claim C1 -/

/-- C1 (code bug): a guest share of two pages whose descriptor
declares addr_range_cnt = 2. The secure side rejects the transfer, the
call returns the error to the guest — but only the first page is
unshared on the rollback path: the second page remains shared, a
partial subset of the descriptor pages left behind after an error
return. The rollback width comes from the untrusted addr_range_cnt
field instead of the painted range count. -/
theorem c1_mem_xfer_partial_rollback_bug :
    (__do_ffa_mem_xfer c1Oracle guestMappedSt FFA_FN64_MEM_SHARE 1 112 112 0 0
        c1Desc).res.a0 = FFA_ERROR ∧
    guestMappedSt.guestSharedIpa = ∅ ∧
    8192 ∈ (__do_ffa_mem_xfer c1Oracle guestMappedSt FFA_FN64_MEM_SHARE 1 112
        112 0 0 c1Desc).st.guestSharedIpa ∧
    4096 ∉ (__do_ffa_mem_xfer c1Oracle guestMappedSt FFA_FN64_MEM_SHARE 1 112
        112 0 0 c1Desc).st.guestSharedIpa ∧
    8192 ∈ (__do_ffa_mem_xfer c1Oracle guestMappedSt FFA_FN64_MEM_SHARE 1 112
        112 0 0 c1Desc).st.guestSharedPa := by
  refine ⟨?_, ?_, ?_, ?_, ?_⟩ <;> decide

end Ffa
